import Mathlib

/-! # galera-init: the database helper and the prestart entry point

A shallow embedding of `db_helper/db_helper.go` and `cmd/prestart/main.go`.

The Go code talks to the outside world through injected collaborators
(`os_helper.OsHelper`, `OpenDBConnection`, `*sql.DB`, `seeder.Seeder`,
`ioutil.ReadFile`, the `lager` logger, the start manager).  Each of them is
embedded as an oracle of an environment record.  An oracle receives the list
of events that happened so far, so its answer may depend on the whole history
of the run: quantifying over environments therefore quantifies over every
possible sequence of outcomes.  Every function returns its Go result together
with the chronological list of the events it caused; each event records the
call and the answer the call received.
-/

namespace GaleraInit

/-! ## Data model -/

/-- Go `error` values.  `sql.ErrNoRows` is a sentinel compared by identity in
the source, every other error is represented by its message. -/
inductive GoError where
  | ErrNoRows
  | other (msg : String)
  deriving DecidableEq, Repr

/-- The `Error()` method of a Go error. -/
def GoError.Error : GoError → String
  | .ErrNoRows => "sql: no rows in result set"
  | .other msg => msg

/-- A `*exec.Cmd`: the handle of a started child process. -/
structure Cmd where
  pid : Nat
  deriving DecidableEq, Repr

/-- A `*sql.DB` handle.  The code only passes it on and prints it with `%#v`. -/
structure DB where
  handle : Nat
  goSyntax : String
  deriving DecidableEq, Repr

/-- The type `config.PreseededDatabase`; it is declared in the `config` package,
outside this source tree, and the helper only hands it to `BuildSeeder`. -/
structure PreseededDatabase where
  DBName : String
  User : String
  Password : String
  deriving DecidableEq, Repr

/-- The fields of `config.DBHelper` that the helper reads. -/
structure DBHelperConfig where
  UpgradePath : String
  User : String
  Password : String
  Socket : String
  PreseededDatabases : List PreseededDatabase
  PostStartSQLFiles : List String
  deriving DecidableEq, Repr

/-- The struct `GaleraDBHelper`.  The collaborators `osHelper` and `logger` live in
the environment, `dbSeeder` is never read. -/
structure GaleraDBHelper where
  logFileLocation : String
  config : DBHelperConfig
  deriving DecidableEq, Repr

/-- What `db.Query` hands back: the rows the cursor will yield, each with the
outcome of `rows.Scan(&name)`, and the value of `rows.Err()` after the loop. -/
structure Rows where
  scans : List (String ⊕ GoError)
  iterErr : Option GoError
  deriving DecidableEq, Repr

/-- One observable step of a run, with the answer it received. -/
inductive Event where
  | info (msg : String) (data : List (String × String))
  | error (action : String) (err : GoError) (data : List (String × String))
  | fatal (action : String) (err : GoError)
  | runCommand (prog : String) (args : List String) (out : String) (err : Option GoError)
  | startCommand (logFile prog : String) (args : List String)
      (cmd : Option Cmd) (err : Option GoError)
  | openDB (cfg : DBHelperConfig) (res : DB ⊕ GoError)
  | closeDB (db : DB)
  | queryRow (sql : String) (res : (String × String) ⊕ GoError)
  | query (sql : String) (res : Rows ⊕ GoError)
  | rowsClose
  | exec (sql : String) (err : Option GoError)
  | readFile (path : String) (res : String ⊕ GoError)
  | buildSeeder (db : DB) (cfg : PreseededDatabase)
  | createDBIfNeeded (cfg : PreseededDatabase) (err : Option GoError)
  | isExistingUser (cfg : PreseededDatabase) (found : Bool) (err : Option GoError)
  | createUser (cfg : PreseededDatabase) (err : Option GoError)
  | updateUser (cfg : PreseededDatabase) (err : Option GoError)
  | grantUserPrivileges (cfg : PreseededDatabase) (err : Option GoError)
  deriving DecidableEq, Repr

/-- A chronological event log. -/
abbrev Trace := List Event

/-- The collaborators of the helper.  Every oracle is given the events so far. -/
structure Env where
  /-- The method `OsHelper.RunCommand(executable, args...) (string, error)`. -/
  RunCommand : Trace → String → List String → String × Option GoError
  /-- The method `OsHelper.StartCommand(logFileName, executable, args...) (*exec.Cmd, error)`. -/
  StartCommand : Trace → String → String → List String → Option Cmd × Option GoError
  /-- The package variable `OpenDBConnection`: it returns `(db, nil)` or `(nil, err)`. -/
  OpenDBConnection : Trace → DBHelperConfig → DB ⊕ GoError
  /-- The call `db.QueryRow(sql).Scan(&unused, &value)`: the two columns or the error. -/
  QueryRowScan : Trace → String → (String × String) ⊕ GoError
  /-- The call `db.Query(sql)`: the rows or the error. -/
  Query : Trace → String → Rows ⊕ GoError
  /-- The call `db.Exec(sql)`, of which only the error is read. -/
  Exec : Trace → String → Option GoError
  /-- The call `ioutil.ReadFile(path)`. -/
  ReadFile : Trace → String → String ⊕ GoError
  /-- The method `Seeder.CreateDBIfNeeded`. -/
  CreateDBIfNeeded : Trace → PreseededDatabase → Option GoError
  /-- The method `Seeder.IsExistingUser`. -/
  IsExistingUser : Trace → PreseededDatabase → Bool × Option GoError
  /-- The method `Seeder.CreateUser`. -/
  CreateUser : Trace → PreseededDatabase → Option GoError
  /-- The method `Seeder.UpdateUser`. -/
  UpdateUser : Trace → PreseededDatabase → Option GoError
  /-- The method `Seeder.GrantUserPrivileges`. -/
  GrantUserPrivileges : Trace → PreseededDatabase → Option GoError

/-- How a Go function without a plain `return` path may end: it returns, it ends
in `logger.Fatal` (which logs at fatal level and panics with the error), or it
panics with a message. -/
inductive Outcome (α : Type) where
  | returned (a : α)
  | fatal (action : String) (err : GoError)
  | panicked (msg : String)
  deriving DecidableEq, Repr

/-- Events that are commands handed to the operating-system helper. -/
def Event.isCommand : Event → Bool
  | .runCommand .. => true
  | .startCommand .. => true
  | _ => false

/-- Events that touch the database connection: opening, closing, queries, statements. -/
def Event.isDatabase : Event → Bool
  | .openDB .. => true
  | .closeDB .. => true
  | .queryRow .. => true
  | .query .. => true
  | .rowsClose => true
  | .exec .. => true
  | _ => false

/-- The argument lists of the start commands of a trace, in order. -/
def startArgs : Trace → List (List String)
  | [] => []
  | .startCommand _ _ args _ _ :: t => args :: startArgs t
  | _ :: t => startArgs t

/-! ## Process control (`db_helper.go`, lines 80-143) -/

/-- The method `GaleraDBHelper.IsProcessRunning`. -/
def IsProcessRunning (env : Env) (_m : GaleraDBHelper) : Bool × Trace :=
  let args := ["--defaults-file=/var/vcap/jobs/pxc-mysql/config/mylogin.cnf", "status"]
  let r := env.RunCommand [] "mysqladmin" args
  (r.2 == none, [Event.runCommand "mysqladmin" args r.1 r.2])

/-- The method `GaleraDBHelper.StartMysqldInStandAlone`. -/
def StartMysqldInStandAlone (env : Env) (_m : GaleraDBHelper) : Outcome Unit × Trace :=
  let args := ["--defaults-file=/var/vcap/jobs/pxc-mysql/config/my.cnf",
    "--wsrep-on=OFF",
    "--wsrep-desync=ON",
    "--wsrep-OSU-method=RSU",
    "--wsrep-provider=none",
    "--skip-networking",
    "--daemonize"]
  let r := env.RunCommand [] "mysqld" args
  let t := [Event.runCommand "mysqld" args r.1 r.2]
  match r.2 with
  | some err => (.fatal "Error starting mysqld in stand-alone" err,
      t ++ [Event.fatal "Error starting mysqld in stand-alone" err])
  | none => (.returned (), t)

/-- The method `GaleraDBHelper.startMysqldAsChildProcess`, called after the events `t`. -/
def startMysqldAsChildProcess (env : Env) (m : GaleraDBHelper) (t : Trace)
    (mysqlArgs : List String) : (Option Cmd × Option GoError) × Trace :=
  let r := env.StartCommand t m.logFileLocation "mysqld" mysqlArgs
  (r, t ++ [Event.startCommand m.logFileLocation "mysqld" mysqlArgs r.1 r.2])

/-- The method `GaleraDBHelper.StartMysqldInJoin`. -/
def StartMysqldInJoin (env : Env) (m : GaleraDBHelper) : (Option Cmd × Option GoError) × Trace :=
  let t := [Event.info "Starting mysqld with 'join'." []]
  let r := startMysqldAsChildProcess env m t
    ["--defaults-file=/var/vcap/jobs/pxc-mysql/config/my.cnf"]
  match r.1.2 with
  | some err => ((none, some err), r.2 ++ [Event.info ("Error starting mysqld: " ++ err.Error) []])
  | none => ((r.1.1, none), r.2)

/-- The method `GaleraDBHelper.StartMysqldInBootstrap`. -/
def StartMysqldInBootstrap (env : Env) (m : GaleraDBHelper) :
    (Option Cmd × Option GoError) × Trace :=
  let t := [Event.info "Starting mysql with 'bootstrap'." []]
  let r := startMysqldAsChildProcess env m t
    ["--defaults-file=/var/vcap/jobs/pxc-mysql/config/my.cnf", "--wsrep-new-cluster"]
  match r.1.2 with
  | some err => ((none, some err),
      r.2 ++ [Event.info ("Error starting node with 'bootstrap': " ++ err.Error) []])
  | none => ((r.1.1, none), r.2)

/-- The method `GaleraDBHelper.StopMysqld`. -/
def StopMysqld (env : Env) (_m : GaleraDBHelper) : Outcome Unit × Trace :=
  let t := [Event.info "Stopping node" []]
  let args := ["--defaults-file=/var/vcap/jobs/pxc-mysql/config/mylogin.cnf", "shutdown"]
  let r := env.RunCommand t "mysqladmin" args
  let t := t ++ [Event.runCommand "mysqladmin" args r.1 r.2]
  match r.2 with
  | some err => (.fatal "Error stopping mysqld" err, t ++ [Event.fatal "Error stopping mysqld" err])
  | none => (.returned (), t)

/-- The method `GaleraDBHelper.Upgrade`. -/
def Upgrade (env : Env) (m : GaleraDBHelper) : (String × Option GoError) × Trace :=
  let args := ["--defaults-file=/var/vcap/jobs/pxc-mysql/config/mylogin.cnf"]
  let r := env.RunCommand [] m.config.UpgradePath args
  (r, [Event.runCommand m.config.UpgradePath args r.1 r.2])


/-! ## Reachability (`db_helper.go`, lines 159-198) -/

/-- The method `GaleraDBHelper.IsDatabaseReachable`.  The deferred
`CloseDBConnection(db)` runs on every return after the connection was opened. -/
def IsDatabaseReachable (env : Env) (m : GaleraDBHelper) : Bool × Trace :=
  let t := [Event.info "Determining if database is reachable" []]
  let o := env.OpenDBConnection t m.config
  let t := t ++ [Event.openDB m.config o]
  match o with
  | .inr err => (false, t ++ [Event.info "database not reachable" [("err", err.Error)]])
  | .inl db =>
    let t := t ++ [Event.info
      ("about to check that we can show global variables like wsrep_on. DB is: " ++ db.goSyntax) []]
    let q := env.QueryRowScan t "SHOW GLOBAL VARIABLES LIKE 'wsrep\\_on'"
    let t := t ++ [Event.queryRow "SHOW GLOBAL VARIABLES LIKE 'wsrep\\_on'" q]
    match q with
    | .inr err =>
      if err = GoError.ErrNoRows then
        (true, t ++ [Event.info "Database is reachable, Galera is off" [], Event.closeDB db])
      else
        (false, t ++ [Event.info
          ("got an error showing variables like wsrep_on. Err:" ++ err.Error) [], Event.closeDB db])
    | .inl (_, value) =>
      let t := t ++ [Event.info "finished showing global variables with no error" []]
      if value = "OFF" then
        (true, t ++ [Event.info "Database is reachable, Galera is off" [], Event.closeDB db])
      else
        let q := env.QueryRowScan t "SHOW STATUS LIKE 'wsrep\\_ready'"
        let t := t ++ [Event.queryRow "SHOW STATUS LIKE 'wsrep\\_ready'" q]
        match q with
        | .inr _ =>
          (false, t ++ [Event.info "scanning global status like wsrep_ready failed" [],
            Event.closeDB db])
        | .inl (_, value) =>
          (value == "ON", t ++ [Event.info ("Database is reachable, Galera is " ++ value) [],
            Event.closeDB db])

/-! ## Seeding (`db_helper.go`, lines 200-256) -/

/-- The `for _, dbToCreate := range m.config.PreseededDatabases` loop of `Seed`, run
after the events `t`.  The result `some err` is the `return err` of the loop body,
`none` means that the loop ran to its end. -/
def seedLoop (env : Env) (db : DB) : List PreseededDatabase → Trace → Option GoError × Trace
  | [], t => (none, t)
  | dbToCreate :: rest, t =>
    let t := t ++ [Event.buildSeeder db dbToCreate]
    let c := env.CreateDBIfNeeded t dbToCreate
    let t := t ++ [Event.createDBIfNeeded dbToCreate c]
    match c with
    | some err => (some err, t)
    | none =>
      let x := env.IsExistingUser t dbToCreate
      let t := t ++ [Event.isExistingUser dbToCreate x.1 x.2]
      match x.2 with
      | some err => (some err, t)
      | none =>
        let u : Option GoError × Trace :=
          if x.1 = false then
            let e := env.CreateUser t dbToCreate
            (e, t ++ [Event.createUser dbToCreate e])
          else
            let e := env.UpdateUser t dbToCreate
            (e, t ++ [Event.updateUser dbToCreate e])
        match u.1 with
        | some err => (some err, u.2)
        | none =>
          let g := env.GrantUserPrivileges u.2 dbToCreate
          let t := u.2 ++ [Event.grantUserPrivileges dbToCreate g]
          match g with
          | some err => (some err, t)
          | none => seedLoop env db rest t

/-- The method `GaleraDBHelper.flushPrivileges`, called after the events `t`. -/
def flushPrivileges (env : Env) (t : Trace) : Option GoError × Trace :=
  let e := env.Exec t "FLUSH PRIVILEGES"
  let t := t ++ [Event.exec "FLUSH PRIVILEGES" e]
  match e with
  | some err => (some err, t ++ [Event.error "Error flushing privileges" err []])
  | none => (none, t)

/-- The method `GaleraDBHelper.Seed`.  A nil slice and an empty slice are both the
empty list. -/
def Seed (env : Env) (m : GaleraDBHelper) : Option GoError × Trace :=
  if m.config.PreseededDatabases.length = 0 then
    (none, [Event.info "No preseeded databases specified, skipping seeding." []])
  else
    let t := [Event.info "Preseeding Databases" []]
    let o := env.OpenDBConnection t m.config
    let t := t ++ [Event.openDB m.config o]
    match o with
    | .inr err => (some err, t ++ [Event.error "database not reachable" err []])
    | .inl db =>
      let l := seedLoop env db m.config.PreseededDatabases t
      match l.1 with
      | some err => (some err, l.2 ++ [Event.closeDB db])
      | none =>
        let f := flushPrivileges env l.2
        match f.1 with
        | some err => (some err, f.2 ++ [Event.closeDB db])
        | none => (none, f.2 ++ [Event.closeDB db])

/-! ## Post-start SQL (`db_helper.go`, lines 258-283) -/

/-- The `for _, file := range m.config.PostStartSQLFiles` loop of `RunPostStartSQL`. -/
def postStartLoop (env : Env) : List String → Trace → Option GoError × Trace
  | [], t => (none, t)
  | file :: rest, t =>
    let r := env.ReadFile t file
    let t := t ++ [Event.readFile file r]
    match r with
    | .inr err =>
      postStartLoop env rest
        (t ++ [Event.error "error reading PostStartSQL file" err [("filePath", file)]])
    | .inl sqlString =>
      let e := env.Exec t sqlString
      let t := t ++ [Event.exec sqlString e]
      match e with
      | some err => (some err, t)
      | none => postStartLoop env rest t

/-- The method `GaleraDBHelper.RunPostStartSQL`. -/
def RunPostStartSQL (env : Env) (m : GaleraDBHelper) : Option GoError × Trace :=
  let t := [Event.info "Running Post Start SQL Queries" []]
  let o := env.OpenDBConnection t m.config
  let t := t ++ [Event.openDB m.config o]
  match o with
  | .inr err => (some err, t ++ [Event.error "database not reachable" err []])
  | .inl db =>
    let l := postStartLoop env m.config.PostStartSQLFiles t
    (l.1, l.2 ++ [Event.closeDB db])

/-! ## Test database cleanup (`db_helper.go`, lines 285-373) -/

/-- The method `GaleraDBHelper.deletePermissionsToCreateTestDatabases`. -/
def deletePermissionsToCreateTestDatabases (env : Env) (t : Trace) : Option GoError × Trace :=
  let e := env.Exec t "DELETE FROM mysql.db WHERE Db IN('test', 'test\\_%')"
  let t := t ++ [Event.exec "DELETE FROM mysql.db WHERE Db IN('test', 'test\\_%')" e]
  match e with
  | some err => (some err, t ++ [Event.error "error deleting permissions for test databases" err []])
  | none => (none, t)

/-- The `for rows.Next()` loop of `showDatabaseNamesLike` over the rows still to come,
with the names gathered so far. -/
def scanRows : List (String ⊕ GoError) → List String → List String ⊕ GoError
  | [], dbNames => .inl dbNames
  | .inr err :: _, _ => .inr err
  | .inl name :: rest, dbNames => scanRows rest (dbNames ++ [name])

/-- What `showDatabaseNamesLike` makes of the answer of `db.Query`. -/
def namesOfRows (rows : Rows) : List String ⊕ GoError :=
  match scanRows rows.scans [] with
  | .inr err => .inr err
  | .inl dbNames =>
    match rows.iterErr with
    | some err => .inr err
    | none => .inl dbNames

/-- The method `GaleraDBHelper.showDatabaseNamesLike`. -/
def showDatabaseNamesLike (env : Env) (pattern : String) (t : Trace) :
    (List String ⊕ GoError) × Trace :=
  let r := env.Query t ("SHOW DATABASES LIKE '" ++ pattern ++ "'")
  let t := t ++ [Event.query ("SHOW DATABASES LIKE '" ++ pattern ++ "'") r]
  match r with
  | .inr err => (.inr err, t)
  | .inl rows => (namesOfRows rows, t ++ [Event.rowsClose])

/-- The method `GaleraDBHelper.testDatabaseNames`. -/
def testDatabaseNames (env : Env) (t : Trace) : (List String ⊕ GoError) × Trace :=
  let allTestDatabaseNames : List String := []
  let r := showDatabaseNamesLike env "test" t
  match r.1 with
  | .inr err => (.inr err, r.2 ++ [Event.error "error searching for 'test' databases" err []])
  | .inl testDatabaseNames =>
    let allTestDatabaseNames := allTestDatabaseNames ++ testDatabaseNames
    let r := showDatabaseNamesLike env "test\\_%" r.2
    match r.1 with
    | .inr err => (.inr err, r.2 ++ [Event.error "error searching for 'test_%' databases" err []])
    | .inl testUnderscoreDatabaseNames =>
      (.inl (allTestDatabaseNames ++ testUnderscoreDatabaseNames), r.2)

/-- The method `GaleraDBHelper.dropDatabasesNamed`. -/
def dropDatabasesNamed (env : Env) : List String → Trace → Option GoError × Trace
  | [], t => (none, t)
  | n :: rest, t =>
    let e := env.Exec t ("DROP DATABASE IF EXISTS " ++ n)
    let t := t ++ [Event.exec ("DROP DATABASE IF EXISTS " ++ n) e]
    match e with
    | some err => (some err, t)
    | none => dropDatabasesNamed env rest t

/-- The method `GaleraDBHelper.TestDatabaseCleanup`. -/
def TestDatabaseCleanup (env : Env) (m : GaleraDBHelper) : Outcome (Option GoError) × Trace :=
  let t := [Event.info "Cleaning up databases" []]
  let o := env.OpenDBConnection t m.config
  let t := t ++ [Event.openDB m.config o]
  match o with
  | .inr _ => (.panicked "", t)
  | .inl db =>
    let d := deletePermissionsToCreateTestDatabases env t
    match d.1 with
    | some err => (.returned (some err), d.2 ++ [Event.closeDB db])
    | none =>
      let f := flushPrivileges env d.2
      match f.1 with
      | some err => (.returned (some err), f.2 ++ [Event.closeDB db])
      | none =>
        let n := testDatabaseNames env f.2
        match n.1 with
        | .inr err => (.returned (some err), n.2 ++ [Event.closeDB db])
        | .inl names =>
          let r := dropDatabasesNamed env names n.2
          (.returned r.1, r.2 ++ [Event.closeDB db])

/-! ## The prestart entry point (`cmd/prestart/main.go`) -/

namespace Prestart

/-- The `*config.Config` that `config.NewConfig` returns; `main` hands its fields to
the constructors of `managerSetup` and logs through its `Logger`. -/
structure Config where
  Db : DBHelperConfig
  LogFileLocation : String
  deriving DecidableEq, Repr

/-- One observable step of `main`, with the answer it received. -/
inductive MainEvent where
  | newConfig (osArgs : List String) (cfg : Config) (err : Option GoError)
  | validate (cfg : Config) (err : Option GoError)
  | fatal (action : String) (err : GoError)
  | info (msg : String)
  | managerSetup (cfg : Config)
  | execute (err : Option GoError)
  | shutdown (err : Option GoError)
  deriving DecidableEq, Repr

/-- The collaborators of `main`; every oracle is given the events so far. -/
structure MainEnv where
  /-- The function `config.NewConfig(os.Args)`. -/
  NewConfig : List MainEvent → List String → Config × Option GoError
  /-- The method `cfg.Validate()`. -/
  Validate : List MainEvent → Config → Option GoError
  /-- The method `startManager.Execute()`. -/
  Execute : List MainEvent → Option GoError
  /-- The method `startManager.Shutdown()`. -/
  Shutdown : List MainEvent → Option GoError

/-- The function `managerStart`. -/
def managerStart (env : MainEnv) (t : List MainEvent) : Option GoError × List MainEvent :=
  let e := env.Execute t
  (e, t ++ [MainEvent.execute e])

/-- The function `managerStop`. -/
def managerStop (env : MainEnv) (t : List MainEvent) : Option GoError × List MainEvent :=
  let e := env.Shutdown t
  (e, t ++ [MainEvent.shutdown e])

/-- The function `main`, run with the command line `osArgs`. -/
def main (env : MainEnv) (osArgs : List String) : Outcome Unit × List MainEvent :=
  let c := env.NewConfig [] osArgs
  let cfg := c.1
  let t := [MainEvent.newConfig osArgs cfg c.2]
  match c.2 with
  | some err => (.fatal "Error creating config" err, t ++ [MainEvent.fatal "Error creating config" err])
  | none =>
    let v := env.Validate t cfg
    let t := t ++ [MainEvent.validate cfg v]
    match v with
    | some err =>
      (.fatal "Error validating config" err, t ++ [MainEvent.fatal "Error validating config" err])
    | none =>
      let t := t ++ [MainEvent.managerSetup cfg]
      let s := managerStart env t
      match s.1 with
      | some err => (.panicked "manager start failed", s.2 ++ [MainEvent.info err.Error])
      | none =>
        let p := managerStop env s.2
        match p.1 with
        | some err => (.panicked "manager stop failed.", p.2 ++ [MainEvent.info err.Error])
        | none => (.returned (), p.2 ++ [MainEvent.info "Process exited without error."])

/-- The calls of `startManager.Execute()` among the events. -/
def MainEvent.isExecute : MainEvent → Bool
  | .execute _ => true
  | _ => false

/-- The calls of `startManager.Shutdown()` among the events. -/
def MainEvent.isShutdown : MainEvent → Bool
  | .shutdown _ => true
  | _ => false

/-- The events of `main` before `Execute` is called, when the configuration parses
and validates. -/
def startHistory (env : MainEnv) (osArgs : List String) : List MainEvent :=
  [MainEvent.newConfig osArgs (env.NewConfig [] osArgs).1 none,
    MainEvent.validate (env.NewConfig [] osArgs).1 none,
    MainEvent.managerSetup (env.NewConfig [] osArgs).1]

/-- An environment for `main` in which the configuration parses and validates and
`Execute` and `Shutdown` answer `execErr` and `stopErr`. -/
def scriptedMainEnv (execErr stopErr : Option GoError) : MainEnv where
  NewConfig := fun _ _ => (⟨⟨"", "", "", "", [], []⟩, ""⟩, none)
  Validate := fun _ _ => none
  Execute := fun _ => execErr
  Shutdown := fun _ => stopErr

end Prestart

/-! ## Runs in the words of the specification -/

/-- The statement that asks for the global variable `wsrep_on`. -/
abbrev wsrepOnQuery : String := "SHOW GLOBAL VARIABLES LIKE 'wsrep\\_on'"

/-- The statement that asks for the status `wsrep_ready`. -/
abbrev wsrepReadyQuery : String := "SHOW STATUS LIKE 'wsrep\\_ready'"

/-- The statement that deletes the permissions on the test databases. -/
abbrev deletePermissionsSQL : String := "DELETE FROM mysql.db WHERE Db IN('test', 'test\\_%')"

/-- The statement that lists the databases matching `pattern`. -/
abbrev showDatabasesSQL (pattern : String) : String := "SHOW DATABASES LIKE '" ++ pattern ++ "'"

/-- The statement that drops the database `n` if it exists. -/
abbrev dropDatabaseSQL (n : String) : String := "DROP DATABASE IF EXISTS " ++ n

/-- The answer recorded in an event is the answer the environment gives to that call
after the events `pre`.  Log lines, `CloseDBConnection`, `rows.Close()` and
`BuildSeeder` carry no answer. -/
def Event.answeredBy (env : Env) (pre : Trace) : Event → Prop
  | .runCommand prog args out err => env.RunCommand pre prog args = (out, err)
  | .startCommand logFile prog args cmd err =>
      env.StartCommand pre logFile prog args = (cmd, err)
  | .openDB cfg res => env.OpenDBConnection pre cfg = res
  | .queryRow sql res => env.QueryRowScan pre sql = res
  | .query sql res => env.Query pre sql = res
  | .exec sql err => env.Exec pre sql = err
  | .readFile path res => env.ReadFile pre path = res
  | .createDBIfNeeded d err => env.CreateDBIfNeeded pre d = err
  | .isExistingUser d found err => env.IsExistingUser pre d = (found, err)
  | .createUser d err => env.CreateUser pre d = err
  | .updateUser d err => env.UpdateUser pre d = err
  | .grantUserPrivileges d err => env.GrantUserPrivileges pre d = err
  | _ => True

/-- Every event of `s`, a continuation of the events `pre`, records the answer the
environment gives at that point of the run. -/
def truthfulFrom (env : Env) : Trace → Trace → Prop
  | _, [] => True
  | pre, ev :: rest => ev.answeredBy env pre ∧ truthfulFrom env (pre ++ [ev]) rest

/-- Every event of the trace of a whole run records the answer of the environment. -/
def Truthful (env : Env) (t : Trace) : Prop := truthfulFrom env [] t

/-- The events of `IsDatabaseReachable` before the `wsrep_on` query, on the
connection `db`. -/
def wsrepOnHistory (m : GaleraDBHelper) (db : DB) : Trace :=
  [Event.info "Determining if database is reachable" [], Event.openDB m.config (.inl db),
    Event.info
      ("about to check that we can show global variables like wsrep_on. DB is: " ++ db.goSyntax)
      []]

/-- The events of `IsDatabaseReachable` before the `wsrep_ready` query, after the
`wsrep_on` query answered the row `(u, v)`. -/
def wsrepReadyHistory (m : GaleraDBHelper) (db : DB) (u v : String) : Trace :=
  wsrepOnHistory m db ++ [Event.queryRow wsrepOnQuery (.inl (u, v)),
    Event.info "finished showing global variables with no error" []]

/-- The path of a `ReadFile` event. -/
def Event.readPath : Event → Option String
  | .readFile path _ => some path
  | _ => none

/-- The content a successful `ReadFile` event returned. -/
def Event.readContent : Event → Option String
  | .readFile _ (.inl content) => some content
  | _ => none

/-- The statement of a `db.Exec` event. -/
def Event.execStatement : Event → Option String
  | .exec sql _ => some sql
  | _ => none

/-- The paths of the files a trace reads, in order. -/
def readPaths (t : Trace) : List String := t.filterMap Event.readPath

/-- The contents of the files a trace reads successfully, in order. -/
def readContents (t : Trace) : List String := t.filterMap Event.readContent

/-- The statements a trace executes with `db.Exec`, in order. -/
def execStatements (t : Trace) : List String := t.filterMap Event.execStatement

/-- The events of a run over the post-start files between opening and closing the
connection, with the result of the run, as the specification words it: a file that
cannot be read is logged and skipped, a file that can be read is executed, and the
first execution that fails ends the run with its error. -/
inductive PostStartRun : List String → Trace → Option GoError → Prop where
  | done : PostStartRun [] [] none
  | skipped {file : String} {err : GoError} {rest : List String} {s : Trace}
      {res : Option GoError} : PostStartRun rest s res →
      PostStartRun (file :: rest)
        (Event.readFile file (.inr err) ::
          Event.error "error reading PostStartSQL file" err [("filePath", file)] :: s) res
  | executed {file sql : String} {rest : List String} {s : Trace} {res : Option GoError} :
      PostStartRun rest s res →
      PostStartRun (file :: rest) (Event.readFile file (.inl sql) :: Event.exec sql none :: s) res
  | failed {file sql : String} {err : GoError} {rest : List String} :
      PostStartRun (file :: rest) [Event.readFile file (.inl sql), Event.exec sql (some err)]
        (some err)

/-- The step of `Seed` that follows `IsExistingUser`, as the specification words it:
`UpdateUser` when the user exists, `CreateUser` when it does not. -/
def userStep (d : PreseededDatabase) (found : Bool) (err : Option GoError) : Event :=
  if found then .updateUser d err else .createUser d err

/-- The error a seeder step returned; `none` for a step that succeeded and for every
event that is not a seeder step. -/
def Event.seederError : Event → Option GoError
  | .createDBIfNeeded _ err => err
  | .isExistingUser _ _ err => err
  | .createUser _ err => err
  | .updateUser _ err => err
  | .grantUserPrivileges _ err => err
  | _ => none

/-- The database of a `CreateDBIfNeeded` event, the first step of each database. -/
def Event.seededDatabase : Event → Option PreseededDatabase
  | .createDBIfNeeded d _ => some d
  | _ => none

/-- The databases a trace starts to seed, in order. -/
def seededDatabases (t : Trace) : List PreseededDatabase := t.filterMap Event.seededDatabase

/-- The events of a run of `Seed` over the preseeded databases between opening and
closing the connection `db`, with the result of the run, as the specification words
it: for each database in turn `CreateDBIfNeeded`, `IsExistingUser`, the user step and
`GrantUserPrivileges`; the first step that fails ends the run with its error; after
the last database `FLUSH PRIVILEGES` is executed once and its result is the result. -/
inductive SeedRun (db : DB) : List PreseededDatabase → Trace → Option GoError → Prop where
  | flushed : SeedRun db [] [Event.exec "FLUSH PRIVILEGES" none] none
  | flushFailed {err : GoError} :
      SeedRun db [] [Event.exec "FLUSH PRIVILEGES" (some err),
        Event.error "Error flushing privileges" err []] (some err)
  | createDBFailed {d : PreseededDatabase} {rest : List PreseededDatabase} {err : GoError} :
      SeedRun db (d :: rest) [Event.buildSeeder db d, Event.createDBIfNeeded d (some err)] (some err)
  | isExistingUserFailed {d : PreseededDatabase} {rest : List PreseededDatabase} {found : Bool}
      {err : GoError} :
      SeedRun db (d :: rest) [Event.buildSeeder db d, Event.createDBIfNeeded d none,
        Event.isExistingUser d found (some err)] (some err)
  | userFailed {d : PreseededDatabase} {rest : List PreseededDatabase} {found : Bool}
      {err : GoError} :
      SeedRun db (d :: rest) [Event.buildSeeder db d, Event.createDBIfNeeded d none,
        Event.isExistingUser d found none, userStep d found (some err)] (some err)
  | grantFailed {d : PreseededDatabase} {rest : List PreseededDatabase} {found : Bool}
      {err : GoError} :
      SeedRun db (d :: rest) [Event.buildSeeder db d, Event.createDBIfNeeded d none,
        Event.isExistingUser d found none, userStep d found none,
        Event.grantUserPrivileges d (some err)] (some err)
  | seeded {d : PreseededDatabase} {rest : List PreseededDatabase} {found : Bool} {s : Trace}
      {res : Option GoError} : SeedRun db rest s res →
      SeedRun db (d :: rest) (Event.buildSeeder db d :: Event.createDBIfNeeded d none ::
        Event.isExistingUser d found none :: userStep d found none ::
        Event.grantUserPrivileges d none :: s) res

/-- The events of one listing query of `TestDatabaseCleanup` that received the
answer `r`: the query, and the deferred `rows.Close()` when there are rows. -/
def listingEvents (pattern : String) (r : Rows ⊕ GoError) : Trace :=
  match r with
  | .inr _ => [Event.query (showDatabasesSQL pattern) r]
  | .inl _ => [Event.query (showDatabasesSQL pattern) r, Event.rowsClose]

/-- The error of the first row that cannot be scanned, if there is one. -/
def firstScanError : List (String ⊕ GoError) → Option GoError
  | [] => none
  | .inr err :: _ => some err
  | .inl _ :: rest => firstScanError rest

/-- The names of the rows that were scanned. -/
def scannedNames : List (String ⊕ GoError) → List String
  | [] => []
  | .inl name :: rest => name :: scannedNames rest
  | .inr _ :: rest => scannedNames rest

/-- The names a listing query returned, or the error of the listing, as the
specification words it: a listing fails when the query fails, when a row cannot
be scanned, or when the iteration over the rows ends with an error; otherwise it
returns the names of all its rows, in order. -/
def listingResult : Rows ⊕ GoError → List String ⊕ GoError
  | .inr err => .inr err
  | .inl rows =>
    match firstScanError rows.scans, rows.iterErr with
    | some err, _ => .inr err
    | none, some err => .inr err
    | none, none => .inl (scannedNames rows.scans)

/-- The statement of a `db.Exec` or `db.Query` event. -/
def Event.sqlStatement : Event → Option String
  | .exec sql _ => some sql
  | .query sql _ => some sql
  | _ => none

/-- The error with which a `db.Exec` or a listing query failed; `none` for a
statement that succeeded and for every other event. -/
def Event.sqlError : Event → Option GoError
  | .exec _ err => err
  | .query _ r =>
    match listingResult r with
    | .inr err => some err
    | .inl _ => none
  | _ => none

/-- The names a listing query event returned; no names for any other event. -/
def Event.listedNames : Event → List String
  | .query _ r =>
    match listingResult r with
    | .inl names => names
    | .inr _ => []
  | _ => []

/-- The statements a trace sends with `db.Exec` and `db.Query`, in order. -/
def sqlStatements (t : Trace) : List String := t.filterMap Event.sqlStatement

/-- The names the listing queries of a trace returned, in order. -/
def listedNames : Trace → List String
  | [] => []
  | ev :: t => ev.listedNames ++ listedNames t

/-- The drops of `TestDatabaseCleanup` over the listed names with the result, as the
specification words it: one `DROP DATABASE IF EXISTS` per name, in order, the first
failing drop ending the run with its error. -/
inductive DropRun : List String → Trace → Option GoError → Prop where
  | done : DropRun [] [] none
  | dropped {n : String} {rest : List String} {s : Trace} {res : Option GoError} :
      DropRun rest s res → DropRun (n :: rest) (Event.exec (dropDatabaseSQL n) none :: s) res
  | failed {n : String} {rest : List String} {err : GoError} :
      DropRun (n :: rest) [Event.exec (dropDatabaseSQL n) (some err)] (some err)

/-- The events of a run of `TestDatabaseCleanup` between opening and closing the
connection, with the error it returns, as the specification words it: delete the
permissions, flush the privileges, list the `test` databases, list the `test\_%`
databases, drop the listed names; the first step that fails ends the run. -/
inductive CleanupRun : Trace → Option GoError → Prop where
  | deleteFailed {err : GoError} :
      CleanupRun [Event.exec deletePermissionsSQL (some err),
        Event.error "error deleting permissions for test databases" err []] (some err)
  | flushFailed {err : GoError} :
      CleanupRun [Event.exec deletePermissionsSQL none,
        Event.exec "FLUSH PRIVILEGES" (some err),
        Event.error "Error flushing privileges" err []] (some err)
  | listTestFailed {r : Rows ⊕ GoError} {err : GoError} : listingResult r = .inr err →
      CleanupRun ([Event.exec deletePermissionsSQL none, Event.exec "FLUSH PRIVILEGES" none] ++
        listingEvents "test" r ++
        [Event.error "error searching for 'test' databases" err []]) (some err)
  | listUnderscoreFailed {r1 r2 : Rows ⊕ GoError} {names1 : List String} {err : GoError} :
      listingResult r1 = .inl names1 → listingResult r2 = .inr err →
      CleanupRun ([Event.exec deletePermissionsSQL none, Event.exec "FLUSH PRIVILEGES" none] ++
        listingEvents "test" r1 ++ listingEvents "test\\_%" r2 ++
        [Event.error "error searching for 'test_%' databases" err []]) (some err)
  | drops {r1 r2 : Rows ⊕ GoError} {names1 names2 : List String} {s : Trace}
      {res : Option GoError} :
      listingResult r1 = .inl names1 → listingResult r2 = .inl names2 →
      DropRun (names1 ++ names2) s res →
      CleanupRun ([Event.exec deletePermissionsSQL none, Event.exec "FLUSH PRIVILEGES" none] ++
        listingEvents "test" r1 ++ listingEvents "test\\_%" r2 ++ s) res

/-- The statements `TestDatabaseCleanup` sends when nothing fails and the listings
return `names`. -/
def cleanupPlan (names : List String) : List String :=
  [deletePermissionsSQL, "FLUSH PRIVILEGES", showDatabasesSQL "test",
    showDatabasesSQL "test\\_%"] ++ names.map dropDatabaseSQL

/-- An environment for the cleanup: the listings return `test` and then `test_a`,
`test_b`, and dropping `test_a` fails. -/
def cleanupEnv : Env where
  RunCommand := fun _ _ _ => ("", none)
  StartCommand := fun _ _ _ _ => (some ⟨1⟩, none)
  OpenDBConnection := fun _ _ => .inl ⟨0, "&sql.DB"⟩
  QueryRowScan := fun _ _ => .inl ("wsrep_on", "OFF")
  Query := fun _ sql =>
    if sql = "SHOW DATABASES LIKE 'test'" then .inl ⟨[.inl "test"], none⟩
    else .inl ⟨[.inl "test_a", .inl "test_b"], none⟩
  Exec := fun _ sql =>
    if sql = "DROP DATABASE IF EXISTS test_a" then some (.other "access denied") else none
  ReadFile := fun _ _ => .inl ""
  CreateDBIfNeeded := fun _ _ => none
  IsExistingUser := fun _ _ => (false, none)
  CreateUser := fun _ _ => none
  UpdateUser := fun _ _ => none
  GrantUserPrivileges := fun _ _ => none

/-- An environment for the post-start files: the file `missing.sql` cannot be read,
and executing the statement `BAD` fails. -/
def postStartEnv : Env where
  RunCommand := fun _ _ _ => ("", none)
  StartCommand := fun _ _ _ _ => (some ⟨1⟩, none)
  OpenDBConnection := fun _ _ => .inl ⟨0, "&sql.DB"⟩
  QueryRowScan := fun _ _ => .inl ("wsrep_on", "OFF")
  Query := fun _ _ => .inl ⟨[], none⟩
  Exec := fun _ sql => if sql = "BAD" then some (.other "syntax error") else none
  ReadFile := fun _ path =>
    if path = "missing.sql" then .inr (.other "no such file") else
    if path = "bad.sql" then .inl "BAD" else .inl "SELECT 1"
  CreateDBIfNeeded := fun _ _ => none
  IsExistingUser := fun _ _ => (false, none)
  CreateUser := fun _ _ => none
  UpdateUser := fun _ _ => none
  GrantUserPrivileges := fun _ _ => none

/-! ## Concrete environments -/

/-- An environment for seeding: the user of database `b` exists already, and
granting the privileges on database `c` fails. -/
def seedEnv : Env where
  RunCommand := fun _ _ _ => ("", none)
  StartCommand := fun _ _ _ _ => (some ⟨1⟩, none)
  OpenDBConnection := fun _ _ => .inl ⟨0, "&sql.DB"⟩
  QueryRowScan := fun _ _ => .inl ("wsrep_on", "OFF")
  Query := fun _ _ => .inl ⟨[], none⟩
  Exec := fun _ _ => none
  ReadFile := fun _ _ => .inl ""
  CreateDBIfNeeded := fun _ _ => none
  IsExistingUser := fun _ d => (d.DBName = "b", none)
  CreateUser := fun _ _ => none
  UpdateUser := fun _ _ => none
  GrantUserPrivileges := fun _ d => if d.DBName = "c" then some (.other "grant denied") else none

/-- A helper with four preseeded databases and four post-start files. -/
def busyHelper : GaleraDBHelper where
  logFileLocation := "/var/vcap/sys/log/pxc-mysql/mysql.err.log"
  config := ⟨"mysql_upgrade", "root", "secret", "/var/vcap/sys/run/pxc-mysql/mysqld.sock",
    [⟨"a", "ua", "pa"⟩, ⟨"b", "ub", "pb"⟩, ⟨"c", "uc", "pc"⟩, ⟨"d", "ud", "pd"⟩],
    ["missing.sql", "a.sql", "bad.sql", "c.sql"]⟩


/-- A helper value on which the functions are evaluated. -/
def sampleHelper : GaleraDBHelper where
  logFileLocation := "/var/vcap/sys/log/pxc-mysql/mysql.err.log"
  config := ⟨"mysql_upgrade", "root", "secret", "/var/vcap/sys/run/pxc-mysql/mysqld.sock", [], []⟩

/-! ## Truthful traces -/

theorem truthfulFrom_append (env : Env) : ∀ (a b pre : Trace),
    truthfulFrom env pre (a ++ b) ↔ truthfulFrom env pre a ∧ truthfulFrom env (pre ++ a) b := by
  intro a
  induction a with
  | nil => intro b pre; simp [truthfulFrom]
  | cons ev a ih =>
    intro b pre
    show (ev.answeredBy env pre ∧ truthfulFrom env (pre ++ [ev]) (a ++ b)) ↔ _
    rw [ih]
    simp [truthfulFrom, and_assoc]

/-! ## Process control: theorems -/

/-- C1: `StartMysqldInBootstrap` hands exactly one command to the operating-system
helper, the start of `mysqld` with the log file of the helper and the two arguments
`--defaults-file=...my.cnf` and `--wsrep-new-cluster`; when that command reports no
error the result is its handle and a nil error, otherwise a nil handle and the same
error. -/
theorem StartMysqldInBootstrap_contract (env : Env) (m : GaleraDBHelper) :
    ∃ cmd err,
      env.StartCommand [Event.info "Starting mysql with 'bootstrap'." []] m.logFileLocation
        "mysqld" ["--defaults-file=/var/vcap/jobs/pxc-mysql/config/my.cnf", "--wsrep-new-cluster"]
        = (cmd, err) ∧
      (StartMysqldInBootstrap env m).2.filter Event.isCommand =
        [Event.startCommand m.logFileLocation "mysqld"
          ["--defaults-file=/var/vcap/jobs/pxc-mysql/config/my.cnf", "--wsrep-new-cluster"]
          cmd err] ∧
      (∀ a ∈ startArgs (StartMysqldInBootstrap env m).2, "--wsrep-new-cluster" ∈ a) ∧
      (err = none → (StartMysqldInBootstrap env m).1 = (cmd, none)) ∧
      (∀ e, err = some e → (StartMysqldInBootstrap env m).1 = (none, some e)) := by
  refine ⟨_, _, rfl, ?_⟩
  unfold StartMysqldInBootstrap startMysqldAsChildProcess
  cases h : (env.StartCommand [Event.info "Starting mysql with 'bootstrap'." []] m.logFileLocation
      "mysqld" ["--defaults-file=/var/vcap/jobs/pxc-mysql/config/my.cnf",
        "--wsrep-new-cluster"]).2 <;>
    simp [h, Event.isCommand, startArgs]

/-- C2: `StartMysqldInJoin` hands exactly one command to the operating-system helper,
the start of `mysqld` with the single argument `--defaults-file=...my.cnf`; the flag
`--wsrep-new-cluster` is absent, and the argument list of `StartMysqldInBootstrap`
is this list with that one flag appended; the result is the handle and a nil error
when the command reports no error, otherwise a nil handle and the same error. -/
theorem StartMysqldInJoin_contract (env : Env) (m : GaleraDBHelper) :
    ∃ cmd err,
      env.StartCommand [Event.info "Starting mysqld with 'join'." []] m.logFileLocation
        "mysqld" ["--defaults-file=/var/vcap/jobs/pxc-mysql/config/my.cnf"] = (cmd, err) ∧
      (StartMysqldInJoin env m).2.filter Event.isCommand =
        [Event.startCommand m.logFileLocation "mysqld"
          ["--defaults-file=/var/vcap/jobs/pxc-mysql/config/my.cnf"] cmd err] ∧
      startArgs (StartMysqldInJoin env m).2 =
        [["--defaults-file=/var/vcap/jobs/pxc-mysql/config/my.cnf"]] ∧
      (∀ a ∈ startArgs (StartMysqldInJoin env m).2, "--wsrep-new-cluster" ∉ a) ∧
      (∀ (env2 : Env) (m2 : GaleraDBHelper), startArgs (StartMysqldInBootstrap env2 m2).2 =
        (startArgs (StartMysqldInJoin env m).2).map (fun a => a ++ ["--wsrep-new-cluster"])) ∧
      (err = none → (StartMysqldInJoin env m).1 = (cmd, none)) ∧
      (∀ e, err = some e → (StartMysqldInJoin env m).1 = (none, some e)) := by
  refine ⟨_, _, rfl, ?_⟩
  have hb : ∀ (env2 : Env) (m2 : GaleraDBHelper), startArgs (StartMysqldInBootstrap env2 m2).2 =
      [["--defaults-file=/var/vcap/jobs/pxc-mysql/config/my.cnf", "--wsrep-new-cluster"]] := by
    intro env2 m2
    unfold StartMysqldInBootstrap startMysqldAsChildProcess
    cases h : (env2.StartCommand [Event.info "Starting mysql with 'bootstrap'." []]
        m2.logFileLocation "mysqld" ["--defaults-file=/var/vcap/jobs/pxc-mysql/config/my.cnf",
          "--wsrep-new-cluster"]).2 <;>
      simp [h, startArgs]
  simp only [hb]
  unfold StartMysqldInJoin startMysqldAsChildProcess
  cases h : (env.StartCommand [Event.info "Starting mysqld with 'join'." []] m.logFileLocation
      "mysqld" ["--defaults-file=/var/vcap/jobs/pxc-mysql/config/my.cnf"]).2 <;>
    simp [h, Event.isCommand, startArgs]

/-- C4: `StopMysqld` hands exactly one command to the operating-system helper,
`mysqladmin --defaults-file=...mylogin.cnf shutdown`; it ends in `logger.Fatal` with
the error of that command if and only if the command returned an error, and
returns normally otherwise. -/
theorem StopMysqld_contract (env : Env) (m : GaleraDBHelper) :
    ∃ out err,
      env.RunCommand [Event.info "Stopping node" []] "mysqladmin"
        ["--defaults-file=/var/vcap/jobs/pxc-mysql/config/mylogin.cnf", "shutdown"] = (out, err) ∧
      (StopMysqld env m).2.filter Event.isCommand =
        [Event.runCommand "mysqladmin"
          ["--defaults-file=/var/vcap/jobs/pxc-mysql/config/mylogin.cnf", "shutdown"] out err] ∧
      (err = none → (StopMysqld env m).1 = .returned ()) ∧
      (∀ e, err = some e → (StopMysqld env m).1 = .fatal "Error stopping mysqld" e ∧
        Event.fatal "Error stopping mysqld" e ∈ (StopMysqld env m).2) ∧
      ((∃ a e, (StopMysqld env m).1 = .fatal a e) ↔ err ≠ none) ∧
      ((∃ a e, Event.fatal a e ∈ (StopMysqld env m).2) ↔ err ≠ none) := by
  refine ⟨_, _, rfl, ?_⟩
  unfold StopMysqld
  cases h : (env.RunCommand [Event.info "Stopping node" []] "mysqladmin"
      ["--defaults-file=/var/vcap/jobs/pxc-mysql/config/mylogin.cnf", "shutdown"]).2 <;>
    simp [h, Event.isCommand]

/-- C5: `StartMysqldInStandAlone` hands exactly one command to the operating-system
helper, through the blocking `RunCommand`: `mysqld` with an argument list that holds
`--wsrep-on=OFF`, `--wsrep-provider=none`, `--skip-networking` and `--daemonize` and
does not hold `--wsrep-new-cluster`; it ends in `logger.Fatal` if and only if that
command returned an error, and returns normally otherwise. -/
theorem StartMysqldInStandAlone_contract (env : Env) (m : GaleraDBHelper) :
    ∃ args out err,
      env.RunCommand [] "mysqld" args = (out, err) ∧
      (StartMysqldInStandAlone env m).2.filter Event.isCommand =
        [Event.runCommand "mysqld" args out err] ∧
      "--wsrep-on=OFF" ∈ args ∧ "--wsrep-provider=none" ∈ args ∧
      "--skip-networking" ∈ args ∧ "--daemonize" ∈ args ∧ "--wsrep-new-cluster" ∉ args ∧
      (err = none → (StartMysqldInStandAlone env m).1 = .returned ()) ∧
      (∀ e, err = some e →
        (StartMysqldInStandAlone env m).1 = .fatal "Error starting mysqld in stand-alone" e) ∧
      ((∃ a e, (StartMysqldInStandAlone env m).1 = .fatal a e) ↔ err ≠ none) ∧
      ((∃ a e, Event.fatal a e ∈ (StartMysqldInStandAlone env m).2) ↔ err ≠ none) := by
  refine ⟨["--defaults-file=/var/vcap/jobs/pxc-mysql/config/my.cnf", "--wsrep-on=OFF",
    "--wsrep-desync=ON", "--wsrep-OSU-method=RSU", "--wsrep-provider=none", "--skip-networking",
    "--daemonize"], _, _, rfl, ?_⟩
  unfold StartMysqldInStandAlone
  cases h : (env.RunCommand [] "mysqld" ["--defaults-file=/var/vcap/jobs/pxc-mysql/config/my.cnf",
      "--wsrep-on=OFF", "--wsrep-desync=ON", "--wsrep-OSU-method=RSU", "--wsrep-provider=none",
      "--skip-networking", "--daemonize"]).2 <;>
    simp [h, Event.isCommand]

/-- C6: `IsProcessRunning` causes exactly one event, one run of
`mysqladmin --defaults-file=...mylogin.cnf status`; its result is true exactly
when that run returned no error; it opens no connection and issues no query, and
its result and events are the same in every environment that answers `RunCommand`
the same way, whatever the helper and the database answers are. -/
theorem IsProcessRunning_contract (env : Env) (m : GaleraDBHelper) :
    ∃ out err,
      env.RunCommand [] "mysqladmin"
        ["--defaults-file=/var/vcap/jobs/pxc-mysql/config/mylogin.cnf", "status"] = (out, err) ∧
      (IsProcessRunning env m).2 =
        [Event.runCommand "mysqladmin"
          ["--defaults-file=/var/vcap/jobs/pxc-mysql/config/mylogin.cnf", "status"] out err] ∧
      ((IsProcessRunning env m).1 = true ↔ err = none) ∧
      (∀ e ∈ (IsProcessRunning env m).2, e.isDatabase = false) ∧
      (∀ (env2 : Env) (m2 : GaleraDBHelper), env2.RunCommand = env.RunCommand →
        IsProcessRunning env2 m2 = IsProcessRunning env m) := by
  refine ⟨_, _, rfl, ?_⟩
  unfold IsProcessRunning
  refine ⟨rfl, ?_, ?_, ?_⟩
  · cases h : (env.RunCommand [] "mysqladmin"
      ["--defaults-file=/var/vcap/jobs/pxc-mysql/config/mylogin.cnf", "status"]).2 <;> simp [h]
  · simp [Event.isDatabase]
  · intro env2 m2 h
    simp [h]

/-! ## Reachability: theorem -/

/-- C3: `IsDatabaseReachable` returns true if and only if `OpenDBConnection` answers
without error and (a) the `wsrep_on` query answers `sql.ErrNoRows`, or (b) it
answers the value `OFF`, or (c) it answers another value and the `wsrep_ready`
query answers exactly `ON`; the answers are those of the environment at the
point of the run where the call is made.  With replication on and `wsrep_ready`
failing or different from `ON` the result is false.  The `wsrep_ready` query is
issued exactly when the connection opened and `wsrep_on` answered a value other
than `OFF`.  Every event of the run records the answer of the environment. -/
theorem IsDatabaseReachable_iff (env : Env) (m : GaleraDBHelper) :
    Truthful env (IsDatabaseReachable env m).2 ∧
    ((IsDatabaseReachable env m).1 = true ↔
      ∃ db, env.OpenDBConnection [Event.info "Determining if database is reachable" []] m.config
          = .inl db ∧
        (env.QueryRowScan (wsrepOnHistory m db) wsrepOnQuery = .inr GoError.ErrNoRows ∨
         (∃ u, env.QueryRowScan (wsrepOnHistory m db) wsrepOnQuery = .inl (u, "OFF")) ∨
         (∃ u v w, env.QueryRowScan (wsrepOnHistory m db) wsrepOnQuery = .inl (u, v) ∧
            v ≠ "OFF" ∧
            env.QueryRowScan (wsrepReadyHistory m db u v) wsrepReadyQuery = .inl (w, "ON")))) ∧
    (∀ db, env.OpenDBConnection [Event.info "Determining if database is reachable" []] m.config
        = .inl db →
      ∀ u v, env.QueryRowScan (wsrepOnHistory m db) wsrepOnQuery = .inl (u, v) → v ≠ "OFF" →
      (∀ w, env.QueryRowScan (wsrepReadyHistory m db u v) wsrepReadyQuery ≠ .inl (w, "ON")) →
      (IsDatabaseReachable env m).1 = false) ∧
    ((∃ r, Event.queryRow wsrepReadyQuery r ∈ (IsDatabaseReachable env m).2) ↔
      ∃ db, env.OpenDBConnection [Event.info "Determining if database is reachable" []] m.config
          = .inl db ∧
        ∃ u v, env.QueryRowScan (wsrepOnHistory m db) wsrepOnQuery = .inl (u, v) ∧ v ≠ "OFF") ∧
    ((∃ r, Event.queryRow wsrepOnQuery r ∈ (IsDatabaseReachable env m).2) ↔
      ∃ db, env.OpenDBConnection [Event.info "Determining if database is reachable" []] m.config
        = .inl db) := by
  have hq : wsrepReadyQuery ≠ wsrepOnQuery := by decide
  have hq2 : wsrepOnQuery ≠ wsrepReadyQuery := by decide
  rcases ho : env.OpenDBConnection [Event.info "Determining if database is reachable" []]
    m.config with db | e
  swap
  · unfold IsDatabaseReachable
    simp [ho, Truthful, truthfulFrom, Event.answeredBy]
  rcases h1 : env.QueryRowScan (wsrepOnHistory m db) wsrepOnQuery with ⟨u, v⟩ | e
  swap
  · have h1a : env.QueryRowScan ([Event.info "Determining if database is reachable" []] ++
        [Event.openDB m.config (Sum.inl db)] ++ [Event.info
          ("about to check that we can show global variables like wsrep_on. DB is: " ++
            db.goSyntax) []]) wsrepOnQuery = .inr e := h1
    have h1n := h1
    simp only [wsrepOnHistory] at h1n
    by_cases he : e = GoError.ErrNoRows
    · have key : IsDatabaseReachable env m = (true,
          wsrepOnHistory m db ++ [Event.queryRow wsrepOnQuery (.inr e),
            Event.info "Database is reachable, Galera is off" [], Event.closeDB db]) := by
        unfold IsDatabaseReachable
        simp only [ho, h1a, he]
        simp [wsrepOnHistory]
      rw [key]
      subst he
      simp [Truthful, truthfulFrom, Event.answeredBy, wsrepOnHistory, ho, h1n, hq, hq2]
    · have key : IsDatabaseReachable env m = (false,
          wsrepOnHistory m db ++ [Event.queryRow wsrepOnQuery (.inr e),
            Event.info ("got an error showing variables like wsrep_on. Err:" ++ e.Error) [],
            Event.closeDB db]) := by
        unfold IsDatabaseReachable
        simp only [ho, h1a, he]
        simp [wsrepOnHistory]
      rw [key]
      simp [Truthful, truthfulFrom, Event.answeredBy, wsrepOnHistory, ho, h1n, hq, hq2, he]
  have h1a : env.QueryRowScan ([Event.info "Determining if database is reachable" []] ++
        [Event.openDB m.config (Sum.inl db)] ++ [Event.info
          ("about to check that we can show global variables like wsrep_on. DB is: " ++
            db.goSyntax) []]) wsrepOnQuery = .inl (u, v) := h1
  have h1n := h1
  simp only [wsrepOnHistory] at h1n
  by_cases hv : v = "OFF"
  · have key : IsDatabaseReachable env m = (true,
        wsrepOnHistory m db ++ [Event.queryRow wsrepOnQuery (.inl (u, v)),
          Event.info "finished showing global variables with no error" [],
          Event.info "Database is reachable, Galera is off" [], Event.closeDB db]) := by
      unfold IsDatabaseReachable
      simp only [ho, h1a, hv]
      simp [wsrepOnHistory]
    rw [key]
    subst hv
    simp [Truthful, truthfulFrom, Event.answeredBy, wsrepOnHistory, ho, h1n, hq, hq2]
  rcases h2 : env.QueryRowScan (wsrepReadyHistory m db u v) wsrepReadyQuery with ⟨w, x⟩ | e
  · have h2a : env.QueryRowScan (([Event.info "Determining if database is reachable" []] ++
        [Event.openDB m.config (Sum.inl db)] ++ [Event.info
          ("about to check that we can show global variables like wsrep_on. DB is: " ++
            db.goSyntax) []]) ++ [Event.queryRow wsrepOnQuery (Sum.inl (u, v))] ++
        [Event.info "finished showing global variables with no error" []]) wsrepReadyQuery
        = .inl (w, x) := h2
    have h2n := h2
    simp only [wsrepReadyHistory, wsrepOnHistory, List.cons_append, List.nil_append] at h2n
    have key : IsDatabaseReachable env m = (x == "ON",
        wsrepReadyHistory m db u v ++ [Event.queryRow wsrepReadyQuery (.inl (w, x)),
          Event.info ("Database is reachable, Galera is " ++ x) [], Event.closeDB db]) := by
      unfold IsDatabaseReachable
      simp only [ho, h1a, hv, if_false, h2a]
      simp [wsrepReadyHistory, wsrepOnHistory]
    rw [key]
    by_cases hx : x = "ON"
    · subst hx
      simp [Truthful, truthfulFrom, Event.answeredBy, wsrepReadyHistory, wsrepOnHistory, ho, h1n,
        h2n, hq, hq2, hv]
      exact ⟨⟨u, v, ⟨rfl, rfl⟩, hv, w, h2n⟩, u, v, ⟨rfl, rfl⟩, hv⟩
    · simp [Truthful, truthfulFrom, Event.answeredBy, wsrepReadyHistory, wsrepOnHistory, ho, h1n,
        h2n, hq, hq2, hv, hx]
      exact ⟨u, v, ⟨rfl, rfl⟩, hv⟩
  · have h2a : env.QueryRowScan (([Event.info "Determining if database is reachable" []] ++
        [Event.openDB m.config (Sum.inl db)] ++ [Event.info
          ("about to check that we can show global variables like wsrep_on. DB is: " ++
            db.goSyntax) []]) ++ [Event.queryRow wsrepOnQuery (Sum.inl (u, v))] ++
        [Event.info "finished showing global variables with no error" []]) wsrepReadyQuery
        = .inr e := h2
    have h2n := h2
    simp only [wsrepReadyHistory, wsrepOnHistory, List.cons_append, List.nil_append] at h2n
    have key : IsDatabaseReachable env m = (false,
        wsrepReadyHistory m db u v ++ [Event.queryRow wsrepReadyQuery (.inr e),
          Event.info "scanning global status like wsrep_ready failed" [], Event.closeDB db]) := by
      unfold IsDatabaseReachable
      simp only [ho, h1a, hv, if_false, h2a]
      simp [wsrepReadyHistory, wsrepOnHistory]
    rw [key]
    simp [Truthful, truthfulFrom, Event.answeredBy, wsrepReadyHistory, wsrepOnHistory, ho, h1n,
      h2n, hq, hq2, hv]
    exact ⟨u, v, ⟨rfl, rfl⟩, hv⟩

/-! ## The prestart entry point: theorem -/

/-- C7: when the configuration parses and validates, `main` calls `Execute` exactly
once, after the events `startHistory`.  If the environment's `Execute` returns an
error `main` panics with `manager start failed` and never calls `Shutdown`.
Otherwise it calls `Shutdown` exactly once and panics with `manager stop failed.`
if the environment's `Shutdown` returns an error.  It returns normally, its last
event being the log line `Process exited without error.`, if and only if both
`Execute` and `Shutdown` returned nil. -/
theorem Prestart.main_contract (env : Prestart.MainEnv) (osArgs : List String)
    (hparse : (env.NewConfig [] osArgs).2 = none)
    (hvalid : env.Validate [Prestart.MainEvent.newConfig osArgs (env.NewConfig [] osArgs).1 none]
      (env.NewConfig [] osArgs).1 = none) :
    Prestart.startHistory env osArgs <+: (Prestart.main env osArgs).2 ∧
    (Prestart.main env osArgs).2.filter Prestart.MainEvent.isExecute
      = [Prestart.MainEvent.execute (env.Execute (Prestart.startHistory env osArgs))] ∧
    (∀ err, env.Execute (Prestart.startHistory env osArgs) = some err →
      (Prestart.main env osArgs).1 = .panicked "manager start failed" ∧
      (Prestart.main env osArgs).2 = Prestart.startHistory env osArgs ++
        [Prestart.MainEvent.execute (some err), Prestart.MainEvent.info err.Error] ∧
      (Prestart.main env osArgs).2.filter Prestart.MainEvent.isShutdown = []) ∧
    (env.Execute (Prestart.startHistory env osArgs) = none →
      (Prestart.main env osArgs).2.filter Prestart.MainEvent.isShutdown
        = [Prestart.MainEvent.shutdown (env.Shutdown (Prestart.startHistory env osArgs ++
            [Prestart.MainEvent.execute none]))] ∧
      (∀ err, env.Shutdown (Prestart.startHistory env osArgs ++
          [Prestart.MainEvent.execute none]) = some err →
        (Prestart.main env osArgs).1 = .panicked "manager stop failed.") ∧
      (env.Shutdown (Prestart.startHistory env osArgs ++ [Prestart.MainEvent.execute none])
          = none →
        (Prestart.main env osArgs).1 = .returned () ∧
        (Prestart.main env osArgs).2.getLast? =
          some (Prestart.MainEvent.info "Process exited without error."))) ∧
    ((Prestart.main env osArgs).1 = .returned () ↔
      env.Execute (Prestart.startHistory env osArgs) = none ∧
      env.Shutdown (Prestart.startHistory env osArgs ++ [Prestart.MainEvent.execute none])
        = none) := by
  have he0 : env.Execute ([Prestart.MainEvent.newConfig osArgs (env.NewConfig [] osArgs).1 none] ++
      [Prestart.MainEvent.validate (env.NewConfig [] osArgs).1 none] ++
      [Prestart.MainEvent.managerSetup (env.NewConfig [] osArgs).1])
      = env.Execute (Prestart.startHistory env osArgs) := rfl
  rcases he : env.Execute (Prestart.startHistory env osArgs) with _ | err
  · have hs0 : env.Shutdown ([Prestart.MainEvent.newConfig osArgs (env.NewConfig [] osArgs).1
          none] ++ [Prestart.MainEvent.validate (env.NewConfig [] osArgs).1 none] ++
        [Prestart.MainEvent.managerSetup (env.NewConfig [] osArgs).1] ++
        [Prestart.MainEvent.execute none])
        = env.Shutdown (Prestart.startHistory env osArgs ++ [Prestart.MainEvent.execute none]) :=
      rfl
    rcases hs : env.Shutdown (Prestart.startHistory env osArgs ++
        [Prestart.MainEvent.execute none]) with _ | err
    · have key : Prestart.main env osArgs = (.returned (),
          Prestart.startHistory env osArgs ++ [Prestart.MainEvent.execute none,
            Prestart.MainEvent.shutdown none,
            Prestart.MainEvent.info "Process exited without error."]) := by
        unfold Prestart.main Prestart.managerStart Prestart.managerStop
        simp only [hparse, hvalid, he0, he, hs0, hs]
        simp [Prestart.startHistory]
      rw [key]
      simp [Prestart.startHistory, Prestart.MainEvent.isExecute, Prestart.MainEvent.isShutdown,
        List.cons_prefix_cons]
    · have key : Prestart.main env osArgs = (.panicked "manager stop failed.",
          Prestart.startHistory env osArgs ++ [Prestart.MainEvent.execute none,
            Prestart.MainEvent.shutdown (some err), Prestart.MainEvent.info err.Error]) := by
        unfold Prestart.main Prestart.managerStart Prestart.managerStop
        simp only [hparse, hvalid, he0, he, hs0, hs]
        simp [Prestart.startHistory]
      rw [key]
      simp [Prestart.startHistory, Prestart.MainEvent.isExecute, Prestart.MainEvent.isShutdown,
        List.cons_prefix_cons]
  · have key : Prestart.main env osArgs = (.panicked "manager start failed",
        Prestart.startHistory env osArgs ++ [Prestart.MainEvent.execute (some err),
          Prestart.MainEvent.info err.Error]) := by
      unfold Prestart.main Prestart.managerStart Prestart.managerStop
      simp only [hparse, hvalid, he0, he]
      simp [Prestart.startHistory]
    rw [key]
    simp [Prestart.startHistory, Prestart.MainEvent.isExecute, Prestart.MainEvent.isShutdown,
      List.cons_prefix_cons]

/-- C7 at a concrete run: the configuration is valid, `Execute` succeeds and
`Shutdown` fails with `timeout`. -/
theorem Prestart.main_contract_witness :
    (Prestart.main (Prestart.scriptedMainEnv none (some (.other "timeout"))) ["prestart"]).2.filter
        Prestart.MainEvent.isShutdown = [Prestart.MainEvent.shutdown (some (.other "timeout"))] ∧
    (Prestart.main (Prestart.scriptedMainEnv none (some (.other "timeout"))) ["prestart"]).1
      = .panicked "manager stop failed." := by
  have h := (Prestart.main_contract
    (Prestart.scriptedMainEnv none (some (.other "timeout"))) ["prestart"] rfl rfl).2.2.2.1 rfl
  exact ⟨h.1, h.2.1 (.other "timeout") rfl⟩

/-! ## Post-start SQL: theorems -/

theorem PostStartRun.readPaths_initial {fs : List String} {s : Trace} {r : Option GoError}
    (h : PostStartRun fs s r) : readPaths s <+: fs := by
  induction h with
  | done => simp [readPaths]
  | skipped _ ih => simpa [readPaths, Event.readPath, List.cons_prefix_cons] using ih
  | executed _ ih => simpa [readPaths, Event.readPath, List.cons_prefix_cons] using ih
  | failed => simp [readPaths, Event.readPath, List.cons_prefix_cons]

theorem PostStartRun.readPaths_all {fs : List String} {s : Trace} {r : Option GoError}
    (h : PostStartRun fs s r) : r = none → readPaths s = fs := by
  induction h with
  | done => simp [readPaths]
  | skipped _ ih => intro hr; simpa [readPaths, Event.readPath] using ih hr
  | executed _ ih => intro hr; simpa [readPaths, Event.readPath] using ih hr
  | failed => simp

theorem PostStartRun.exec_eq_read {fs : List String} {s : Trace} {r : Option GoError}
    (h : PostStartRun fs s r) : execStatements s = readContents s := by
  induction h with
  | done => rfl
  | skipped _ ih => simpa [execStatements, readContents, Event.execStatement, Event.readContent] using ih
  | executed _ ih => simpa [execStatements, readContents, Event.execStatement, Event.readContent] using ih
  | failed => simp [execStatements, readContents, Event.execStatement, Event.readContent]

theorem PostStartRun.none_iff {fs : List String} {s : Trace} {r : Option GoError}
    (h : PostStartRun fs s r) :
    r = none ↔ ∀ sql err, Event.exec sql err ∈ s → err = none := by
  induction h with
  | done => simp
  | skipped _ ih => simpa using ih
  | executed _ ih =>
    rw [ih]
    constructor
    · intro h sql err hm
      simp at hm
      rcases hm with ⟨_, rfl⟩ | hm
      · rfl
      · exact h sql err hm
    · intro h sql err hm
      exact h sql err (by simp [hm])
  | failed => simp

theorem PostStartRun.failing_exec_ends {fs : List String} {s : Trace} {r : Option GoError}
    (h : PostStartRun fs s r) :
    ∀ sql e, Event.exec sql (some e) ∈ s →
      r = some e ∧ ∃ pre, s = pre ++ [Event.exec sql (some e)] := by
  induction h with
  | done => simp
  | @skipped file err rest s res _ ih =>
    intro sql e hm
    simp at hm
    obtain ⟨hr, pre, hp⟩ := ih sql e hm
    exact ⟨hr, Event.readFile file (.inr err) ::
      Event.error "error reading PostStartSQL file" err [("filePath", file)] :: pre, by simp [hp]⟩
  | @executed file sql2 rest s res _ ih =>
    intro sql e hm
    simp at hm
    obtain ⟨hr, pre, hp⟩ := ih sql e hm
    exact ⟨hr, Event.readFile file (.inl sql2) :: Event.exec sql2 none :: pre, by simp [hp]⟩
  | @failed file sql2 err rest =>
    intro sql e hm
    simp at hm
    obtain ⟨rfl, rfl⟩ := hm
    exact ⟨rfl, [Event.readFile file (.inl sql)], by simp⟩

theorem PostStartRun.error_of_exec {fs : List String} {s : Trace} {r : Option GoError}
    (h : PostStartRun fs s r) : ∀ e, r = some e → ∃ sql, Event.exec sql (some e) ∈ s := by
  induction h with
  | done => simp
  | skipped _ ih =>
    intro e he
    obtain ⟨sql, hs⟩ := ih e he
    exact ⟨sql, by simp [hs]⟩
  | executed _ ih =>
    intro e he
    obtain ⟨sql, hs⟩ := ih e he
    exact ⟨sql, by simp [hs]⟩
  | @failed file sql err rest =>
    intro e he
    simp at he
    subst he
    exact ⟨sql, by simp⟩

theorem PostStartRun.unreadable_logged {fs : List String} {s : Trace} {r : Option GoError}
    (h : PostStartRun fs s r) : ∀ file err, Event.readFile file (.inr err) ∈ s →
      Event.error "error reading PostStartSQL file" err [("filePath", file)] ∈ s := by
  induction h with
  | done => simp
  | skipped _ ih =>
    intro file err hm
    simp at hm
    rcases hm with ⟨rfl, rfl⟩ | hm
    · simp
    · simp [ih file err hm]
  | executed _ ih =>
    intro file err hm
    simp at hm
    simp [ih file err hm]
  | failed => simp

/-- The loop of `RunPostStartSQL` extends the trace by a run in the words of the
specification, each event of which records the answer of the environment. -/
theorem postStartLoop_run (env : Env) : ∀ (fs : List String) (t : Trace),
    ∃ s, (postStartLoop env fs t).2 = t ++ s ∧ PostStartRun fs s (postStartLoop env fs t).1 ∧
      truthfulFrom env t s := by
  intro fs
  induction fs with
  | nil => intro t; exact ⟨[], by simp [postStartLoop], .done, trivial⟩
  | cons file rest ih =>
    intro t
    rcases hr : env.ReadFile t file with sql | err
    · rcases he : env.Exec (t ++ [Event.readFile file (.inl sql)]) sql with _ | err
      · obtain ⟨s, hs, hrun, htr⟩ :=
          ih (t ++ [Event.readFile file (.inl sql)] ++ [Event.exec sql none])
        refine ⟨Event.readFile file (.inl sql) :: Event.exec sql none :: s, ?_, ?_, ?_⟩
        · simp only [postStartLoop, hr, he, hs]; simp
        · simp only [postStartLoop, hr, he]; exact .executed hrun
        · simp only [truthfulFrom, Event.answeredBy]; exact ⟨hr, he, htr⟩
      · refine ⟨[Event.readFile file (.inl sql), Event.exec sql (some err)], ?_, ?_, ?_⟩
        · simp only [postStartLoop, hr, he]; simp
        · simp only [postStartLoop, hr, he]; exact .failed
        · simp only [truthfulFrom, Event.answeredBy]; exact ⟨hr, he, trivial⟩
    · obtain ⟨s, hs, hrun, htr⟩ := ih (t ++ [Event.readFile file (.inr err)] ++
        [Event.error "error reading PostStartSQL file" err [("filePath", file)]])
      refine ⟨Event.readFile file (.inr err) ::
        Event.error "error reading PostStartSQL file" err [("filePath", file)] :: s, ?_, ?_, ?_⟩
      · simp only [postStartLoop, hr, hs]; simp
      · simp only [postStartLoop, hr]; exact .skipped hrun
      · simp only [truthfulFrom, Event.answeredBy]; exact ⟨hr, trivial, htr⟩

theorem execStatements_eq_nil {t : Trace} (h : execStatements t = []) :
    ∀ sql err, Event.exec sql err ∉ t := by
  intro sql err hm
  have : sql ∈ execStatements t := by
    unfold execStatements
    exact List.mem_filterMap.mpr ⟨_, hm, rfl⟩
  simp [h] at this

/-- C9: `RunPostStartSQL` treats the two failures differently.  A file that cannot be
read is logged and skipped: nothing is executed for it, its error is not the result,
and the run goes on with the next file.  The first statement whose execution fails
ends the run: its error is the result and nothing but closing the connection
follows.  The result is nil if and only if the connection opened and every
executed statement succeeded; in particular it is nil when the connection opened
and no file could be read. -/
theorem RunPostStartSQL_contract (env : Env) (m : GaleraDBHelper) :
    Truthful env (RunPostStartSQL env m).2 ∧
    (∀ err, env.OpenDBConnection [Event.info "Running Post Start SQL Queries" []] m.config
        = .inr err →
      (RunPostStartSQL env m).1 = some err ∧ readPaths (RunPostStartSQL env m).2 = [] ∧
      execStatements (RunPostStartSQL env m).2 = []) ∧
    (∀ db, env.OpenDBConnection [Event.info "Running Post Start SQL Queries" []] m.config
        = .inl db →
      ∃ s, (RunPostStartSQL env m).2 =
          [Event.info "Running Post Start SQL Queries" [], Event.openDB m.config (.inl db)] ++ s ++
            [Event.closeDB db] ∧
        PostStartRun m.config.PostStartSQLFiles s (RunPostStartSQL env m).1) ∧
    (∀ file err, Event.readFile file (.inr err) ∈ (RunPostStartSQL env m).2 →
      Event.error "error reading PostStartSQL file" err [("filePath", file)]
        ∈ (RunPostStartSQL env m).2) ∧
    execStatements (RunPostStartSQL env m).2 = readContents (RunPostStartSQL env m).2 ∧
    readPaths (RunPostStartSQL env m).2 <+: m.config.PostStartSQLFiles ∧
    ((RunPostStartSQL env m).1 = none →
      readPaths (RunPostStartSQL env m).2 = m.config.PostStartSQLFiles) ∧
    (∀ sql e, Event.exec sql (some e) ∈ (RunPostStartSQL env m).2 →
      (RunPostStartSQL env m).1 = some e ∧
      ∃ pre db, (RunPostStartSQL env m).2 = pre ++ [Event.exec sql (some e), Event.closeDB db]) ∧
    (∀ e, (RunPostStartSQL env m).1 = some e →
      env.OpenDBConnection [Event.info "Running Post Start SQL Queries" []] m.config = .inr e ∨
      ∃ sql, Event.exec sql (some e) ∈ (RunPostStartSQL env m).2) ∧
    ((RunPostStartSQL env m).1 = none ↔
      (∃ db, env.OpenDBConnection [Event.info "Running Post Start SQL Queries" []] m.config
        = .inl db) ∧
      ∀ sql err, Event.exec sql err ∈ (RunPostStartSQL env m).2 → err = none) ∧
    ((∃ db, env.OpenDBConnection [Event.info "Running Post Start SQL Queries" []] m.config
        = .inl db) →
      readContents (RunPostStartSQL env m).2 = [] → (RunPostStartSQL env m).1 = none) := by
  rcases ho : env.OpenDBConnection [Event.info "Running Post Start SQL Queries" []] m.config
    with db | e
  · obtain ⟨s, hs, hrun, htr⟩ := postStartLoop_run env m.config.PostStartSQLFiles
      ([Event.info "Running Post Start SQL Queries" []] ++ [Event.openDB m.config (.inl db)])
    generalize hres : (postStartLoop env m.config.PostStartSQLFiles
      ([Event.info "Running Post Start SQL Queries" []] ++
        [Event.openDB m.config (.inl db)])).1 = res at hrun
    have key : RunPostStartSQL env m = (res,
        [Event.info "Running Post Start SQL Queries" [], Event.openDB m.config (.inl db)] ++ s ++
          [Event.closeDB db]) := by
      unfold RunPostStartSQL
      simp only [ho, hs, hres]
      simp
    have hex := hrun.exec_eq_read
    have hnone := hrun.none_iff
    rw [key]
    refine ⟨?_, ?_, ?_, ?_, ?_, ?_, ?_, ?_, ?_, ?_, ?_⟩
    · unfold Truthful
      rw [truthfulFrom_append, truthfulFrom_append]
      refine ⟨⟨?_, ?_⟩, ?_⟩
      · simp [truthfulFrom, Event.answeredBy, ho]
      · simpa using htr
      · simp [truthfulFrom, Event.answeredBy]
    · simp
    · intro db2 h2
      simp at h2
      subst h2
      exact ⟨s, by simp, hrun⟩
    · intro file err hm
      simp at hm
      have := hrun.unreadable_logged file err hm
      simp [this]
    · simpa [execStatements, readContents, Event.execStatement, Event.readContent] using hex
    · simpa [readPaths, Event.readPath] using hrun.readPaths_initial
    · intro hr
      simpa [readPaths, Event.readPath] using hrun.readPaths_all hr
    · intro sql e hm
      simp at hm
      obtain ⟨hr, pre, hp⟩ := hrun.failing_exec_ends sql e hm
      refine ⟨hr, [Event.info "Running Post Start SQL Queries" [],
        Event.openDB m.config (.inl db)] ++ pre, db, ?_⟩
      simp [hp]
    · intro e he
      obtain ⟨sql, hm⟩ := hrun.error_of_exec e he
      exact Or.inr ⟨sql, by simp [hm]⟩
    · simp only [hnone]
      simp
    · intro _ hc
      simp only [hnone]
      intro sql err hm
      have hc2 : readContents s = [] := by
        simpa [readContents, Event.readContent] using hc
      exact absurd hm (execStatements_eq_nil (hex.trans hc2) sql err)
  · unfold RunPostStartSQL
    simp [ho, readPaths, execStatements, readContents, Event.readPath, Event.execStatement,
      Event.readContent, Truthful, truthfulFrom, Event.answeredBy]

/-! ## Seeding: theorems -/

theorem SeedRun.seededDatabases_initial {db : DB} {ds : List PreseededDatabase} {s : Trace}
    {r : Option GoError} (h : SeedRun db ds s r) : seededDatabases s <+: ds := by
  induction h with
  | flushed => simp [seededDatabases, Event.seededDatabase]
  | flushFailed => simp [seededDatabases, Event.seededDatabase]
  | createDBFailed => simp [seededDatabases, Event.seededDatabase, List.cons_prefix_cons]
  | isExistingUserFailed => simp [seededDatabases, Event.seededDatabase, List.cons_prefix_cons]
  | @userFailed d rest found err =>
    cases found <;> simp [seededDatabases, Event.seededDatabase, userStep, List.cons_prefix_cons]
  | @grantFailed d rest found err =>
    cases found <;> simp [seededDatabases, Event.seededDatabase, userStep, List.cons_prefix_cons]
  | @seeded d rest found s res _ ih =>
    cases found <;>
      simpa [seededDatabases, Event.seededDatabase, userStep, List.cons_prefix_cons] using ih

theorem SeedRun.failing_step_ends {db : DB} {ds : List PreseededDatabase} {s : Trace}
    {r : Option GoError} (h : SeedRun db ds s r) :
    ∀ ev ∈ s, ∀ e, ev.seederError = some e →
      r = some e ∧ (∃ pre, s = pre ++ [ev]) ∧ execStatements s = [] := by
  induction h with
  | flushed => simp [Event.seederError]
  | flushFailed => simp [Event.seederError]
  | @createDBFailed d rest err =>
    intro ev hm e he
    simp at hm
    rcases hm with rfl | rfl
    · simp [Event.seederError] at he
    · simp [Event.seederError] at he
      subst he
      exact ⟨rfl, ⟨[Event.buildSeeder db d], by simp⟩,
        by simp [execStatements, Event.execStatement]⟩
  | @isExistingUserFailed d rest found err =>
    intro ev hm e he
    simp at hm
    rcases hm with rfl | rfl | rfl
    · simp [Event.seederError] at he
    · simp [Event.seederError] at he
    · simp [Event.seederError] at he
      subst he
      exact ⟨rfl, ⟨[Event.buildSeeder db d, Event.createDBIfNeeded d none], by simp⟩,
        by simp [execStatements, Event.execStatement]⟩
  | @userFailed d rest found err =>
    intro ev hm e he
    simp at hm
    rcases hm with rfl | rfl | rfl | rfl
    · simp [Event.seederError] at he
    · simp [Event.seederError] at he
    · simp [Event.seederError] at he
    · have he2 : err = e := by cases found <;> simpa [userStep, Event.seederError] using he
      subst he2
      exact ⟨rfl, ⟨[Event.buildSeeder db d, Event.createDBIfNeeded d none,
        Event.isExistingUser d found none], by simp⟩,
        by cases found <;> simp [execStatements, Event.execStatement, userStep]⟩
  | @grantFailed d rest found err =>
    intro ev hm e he
    simp at hm
    rcases hm with rfl | rfl | rfl | rfl | rfl
    · simp [Event.seederError] at he
    · simp [Event.seederError] at he
    · simp [Event.seederError] at he
    · cases found <;> simp [userStep, Event.seederError] at he
    · simp [Event.seederError] at he
      subst he
      exact ⟨rfl, ⟨[Event.buildSeeder db d, Event.createDBIfNeeded d none,
        Event.isExistingUser d found none, userStep d found none], by simp⟩,
        by cases found <;> simp [execStatements, Event.execStatement, userStep]⟩
  | @seeded d rest found s res _ ih =>
    intro ev hm e he
    simp at hm
    rcases hm with rfl | rfl | rfl | rfl | rfl | hm
    · simp [Event.seederError] at he
    · simp [Event.seederError] at he
    · simp [Event.seederError] at he
    · cases found <;> simp [userStep, Event.seederError] at he
    · simp [Event.seederError] at he
    · obtain ⟨hr, ⟨pre, hp⟩, hx⟩ := ih ev hm e he
      refine ⟨hr, ⟨Event.buildSeeder db d :: Event.createDBIfNeeded d none ::
        Event.isExistingUser d found none :: userStep d found none ::
        Event.grantUserPrivileges d none :: pre, by simp [hp]⟩, ?_⟩
      unfold execStatements at hx ⊢
      cases found <;> simpa [Event.execStatement, userStep] using hx

theorem SeedRun.flush_when_no_step_fails {db : DB} {ds : List PreseededDatabase} {s : Trace}
    {r : Option GoError} (h : SeedRun db ds s r) :
    (∀ ev ∈ s, ev.seederError = none) →
      seededDatabases s = ds ∧ execStatements s = ["FLUSH PRIVILEGES"] ∧
      ∃ pre post, s = pre ++ [Event.exec "FLUSH PRIVILEGES" r] ++ post ∧
        (∀ ev ∈ post, ev.seederError = none ∧ ev.seededDatabase = none) ∧
        (post = [] ∨ ∃ err, post = [Event.error "Error flushing privileges" err []]) := by
  induction h with
  | flushed =>
    intro _
    exact ⟨rfl, rfl, [], [], by simp, by simp, Or.inl rfl⟩
  | @flushFailed err =>
    intro _
    exact ⟨rfl, rfl, [], [Event.error "Error flushing privileges" err []], by simp,
      by simp [Event.seederError, Event.seededDatabase], Or.inr ⟨err, rfl⟩⟩
  | @createDBFailed d rest err =>
    intro h
    have := h (Event.createDBIfNeeded d (some err)) (by simp)
    simp [Event.seederError] at this
  | @isExistingUserFailed d rest found err =>
    intro h
    have := h (Event.isExistingUser d found (some err)) (by simp)
    simp [Event.seederError] at this
  | @userFailed d rest found err =>
    intro h
    have := h (userStep d found (some err)) (by simp)
    cases found <;> simp [userStep, Event.seederError] at this
  | @grantFailed d rest found err =>
    intro h
    have := h (Event.grantUserPrivileges d (some err)) (by simp)
    simp [Event.seederError] at this
  | @seeded d rest found s res _ ih =>
    intro h
    obtain ⟨h1, h2, pre, post, hp, hpost, hshape⟩ := ih (fun ev hm => h ev (by simp [hm]))
    refine ⟨?_, ?_, Event.buildSeeder db d :: Event.createDBIfNeeded d none ::
        Event.isExistingUser d found none :: userStep d found none ::
        Event.grantUserPrivileges d none :: pre, post, by simp [hp], hpost, hshape⟩
    · unfold seededDatabases at h1 ⊢
      cases found <;> simpa [Event.seededDatabase, userStep] using h1
    · unfold execStatements at h2 ⊢
      cases found <;> simpa [Event.execStatement, userStep] using h2

/-- The loop of `Seed`, followed by `flushPrivileges` when it runs to its end, extends
the trace by a run in the words of the specification, each event of which records
the answer of the environment. -/
theorem seedLoop_run (env : Env) (db : DB) : ∀ (ds : List PreseededDatabase) (t : Trace),
    ∃ s, truthfulFrom env t s ∧
      (∀ e, (seedLoop env db ds t).1 = some e →
        (seedLoop env db ds t).2 = t ++ s ∧ SeedRun db ds s (some e)) ∧
      ((seedLoop env db ds t).1 = none →
        (flushPrivileges env (seedLoop env db ds t).2).2 = t ++ s ∧
        SeedRun db ds s (flushPrivileges env (seedLoop env db ds t).2).1) := by
  intro ds
  induction ds with
  | nil =>
    intro t
    rcases hf : env.Exec t "FLUSH PRIVILEGES" with _ | err
    · refine ⟨[Event.exec "FLUSH PRIVILEGES" none], ?_, ?_, ?_⟩
      · simp only [truthfulFrom, Event.answeredBy]; exact ⟨hf, trivial⟩
      · simp [seedLoop]
      · intro _
        simp only [seedLoop, flushPrivileges, hf]
        exact ⟨by simp, .flushed⟩
    · refine ⟨[Event.exec "FLUSH PRIVILEGES" (some err),
        Event.error "Error flushing privileges" err []], ?_, ?_, ?_⟩
      · simp only [truthfulFrom, Event.answeredBy]; exact ⟨hf, trivial, trivial⟩
      · simp [seedLoop]
      · intro _
        simp only [seedLoop, flushPrivileges, hf]
        exact ⟨by simp, .flushFailed⟩
  | cons d rest ih =>
    intro t
    rcases hc : env.CreateDBIfNeeded (t ++ [Event.buildSeeder db d]) d with _ | err
    swap
    · refine ⟨[Event.buildSeeder db d, Event.createDBIfNeeded d (some err)], ?_, ?_, ?_⟩
      · simp only [truthfulFrom, Event.answeredBy]; exact ⟨trivial, hc, trivial⟩
      · intro e he
        simp only [seedLoop, hc] at he ⊢
        simp at he
        subst he
        exact ⟨by simp, .createDBFailed⟩
      · intro he
        simp only [seedLoop, hc] at he
        simp at he
    rcases hx : env.IsExistingUser (t ++ [Event.buildSeeder db d] ++
      [Event.createDBIfNeeded d none]) d with ⟨found, _ | err⟩
    swap
    · refine ⟨[Event.buildSeeder db d, Event.createDBIfNeeded d none,
        Event.isExistingUser d found (some err)], ?_, ?_, ?_⟩
      · simp only [truthfulFrom, Event.answeredBy]; exact ⟨trivial, hc, hx, trivial⟩
      · intro e he
        simp only [seedLoop, hc, hx] at he ⊢
        simp at he
        subst he
        exact ⟨by simp, .isExistingUserFailed⟩
      · intro he
        simp only [seedLoop, hc, hx] at he
        simp at he
    cases found
    · rcases hu : env.CreateUser (t ++ [Event.buildSeeder db d] ++ [Event.createDBIfNeeded d none] ++
        [Event.isExistingUser d false none]) d with _ | err
      swap
      · refine ⟨[Event.buildSeeder db d, Event.createDBIfNeeded d none,
          Event.isExistingUser d false none, userStep d false (some err)], ?_, ?_, ?_⟩
        · simp only [truthfulFrom, Event.answeredBy, userStep, Bool.false_eq_true, ↓reduceIte]
          exact ⟨trivial, hc, hx, hu, trivial⟩
        · intro e he
          simp only [seedLoop, hc, hx, hu] at he ⊢
          simp at he
          subst he
          exact ⟨by simp [userStep], .userFailed⟩
        · intro he
          simp only [seedLoop, hc, hx, hu] at he
          simp at he
      rcases hg : env.GrantUserPrivileges (t ++ [Event.buildSeeder db d] ++
        [Event.createDBIfNeeded d none] ++ [Event.isExistingUser d false none] ++
        [Event.createUser d none]) d with _ | err
      swap
      · have hgn := hg
        simp only [List.append_assoc, List.cons_append, List.nil_append] at hgn
        refine ⟨[Event.buildSeeder db d, Event.createDBIfNeeded d none,
          Event.isExistingUser d false none, userStep d false none,
          Event.grantUserPrivileges d (some err)], ?_, ?_, ?_⟩
        · simp only [truthfulFrom, Event.answeredBy, userStep, Bool.false_eq_true, ↓reduceIte]
          exact ⟨trivial, hc, hx, hu, hg, trivial⟩
        · intro e he
          simp only [seedLoop, hc, hx, hu] at he ⊢
          simp [hgn] at he
          subst he
          exact ⟨by simp [userStep, hgn], .grantFailed⟩
        · intro he
          simp only [seedLoop, hc, hx, hu] at he
          simp [hgn] at he
      have hgn := hg
      simp only [List.append_assoc, List.cons_append, List.nil_append] at hgn
      obtain ⟨s, htr, hs1, hs2⟩ := ih (t ++ [Event.buildSeeder db d] ++
        [Event.createDBIfNeeded d none] ++ [Event.isExistingUser d false none] ++
        [Event.createUser d none] ++ [Event.grantUserPrivileges d none])
      have hstep : seedLoop env db (d :: rest) t = seedLoop env db rest (t ++
          [Event.buildSeeder db d] ++ [Event.createDBIfNeeded d none] ++
          [Event.isExistingUser d false none] ++ [Event.createUser d none] ++
          [Event.grantUserPrivileges d none]) := by
        rw [seedLoop]
        simp only [hc, hx, hu]
        simp [hgn]
      refine ⟨Event.buildSeeder db d :: Event.createDBIfNeeded d none ::
        Event.isExistingUser d false none :: userStep d false none ::
        Event.grantUserPrivileges d none :: s, ?_, ?_, ?_⟩
      · simp only [truthfulFrom, Event.answeredBy, userStep, Bool.false_eq_true, ↓reduceIte]
        exact ⟨trivial, hc, hx, hu, hg, htr⟩
      · intro e he
        rw [hstep] at he ⊢
        obtain ⟨h1, h2⟩ := hs1 e he
        exact ⟨by rw [h1]; simp [userStep], .seeded h2⟩
      · intro he
        rw [hstep] at he ⊢
        obtain ⟨h1, h2⟩ := hs2 he
        exact ⟨by rw [h1]; simp [userStep], .seeded h2⟩
    · rcases hu : env.UpdateUser (t ++ [Event.buildSeeder db d] ++ [Event.createDBIfNeeded d none] ++
        [Event.isExistingUser d true none]) d with _ | err
      swap
      · refine ⟨[Event.buildSeeder db d, Event.createDBIfNeeded d none,
          Event.isExistingUser d true none, userStep d true (some err)], ?_, ?_, ?_⟩
        · simp only [truthfulFrom, Event.answeredBy, userStep, Bool.false_eq_true, ↓reduceIte]
          exact ⟨trivial, hc, hx, hu, trivial⟩
        · intro e he
          simp only [seedLoop, hc, hx, hu] at he ⊢
          simp at he
          subst he
          exact ⟨by simp [userStep], .userFailed⟩
        · intro he
          simp only [seedLoop, hc, hx, hu] at he
          simp at he
      rcases hg : env.GrantUserPrivileges (t ++ [Event.buildSeeder db d] ++
        [Event.createDBIfNeeded d none] ++ [Event.isExistingUser d true none] ++
        [Event.updateUser d none]) d with _ | err
      swap
      · have hgn := hg
        simp only [List.append_assoc, List.cons_append, List.nil_append] at hgn
        refine ⟨[Event.buildSeeder db d, Event.createDBIfNeeded d none,
          Event.isExistingUser d true none, userStep d true none,
          Event.grantUserPrivileges d (some err)], ?_, ?_, ?_⟩
        · simp only [truthfulFrom, Event.answeredBy, userStep, Bool.false_eq_true, ↓reduceIte]
          exact ⟨trivial, hc, hx, hu, hg, trivial⟩
        · intro e he
          simp only [seedLoop, hc, hx, hu] at he ⊢
          simp [hgn] at he
          subst he
          exact ⟨by simp [userStep, hgn], .grantFailed⟩
        · intro he
          simp only [seedLoop, hc, hx, hu] at he
          simp [hgn] at he
      have hgn := hg
      simp only [List.append_assoc, List.cons_append, List.nil_append] at hgn
      obtain ⟨s, htr, hs1, hs2⟩ := ih (t ++ [Event.buildSeeder db d] ++
        [Event.createDBIfNeeded d none] ++ [Event.isExistingUser d true none] ++
        [Event.updateUser d none] ++ [Event.grantUserPrivileges d none])
      have hstep : seedLoop env db (d :: rest) t = seedLoop env db rest (t ++
          [Event.buildSeeder db d] ++ [Event.createDBIfNeeded d none] ++
          [Event.isExistingUser d true none] ++ [Event.updateUser d none] ++
          [Event.grantUserPrivileges d none]) := by
        rw [seedLoop]
        simp only [hc, hx, hu]
        simp [hgn]
      refine ⟨Event.buildSeeder db d :: Event.createDBIfNeeded d none ::
        Event.isExistingUser d true none :: userStep d true none ::
        Event.grantUserPrivileges d none :: s, ?_, ?_, ?_⟩
      · simp only [truthfulFrom, Event.answeredBy, userStep, Bool.false_eq_true, ↓reduceIte]
        exact ⟨trivial, hc, hx, hu, hg, htr⟩
      · intro e he
        rw [hstep] at he ⊢
        obtain ⟨h1, h2⟩ := hs1 e he
        exact ⟨by rw [h1]; simp [userStep], .seeded h2⟩
      · intro he
        rw [hstep] at he ⊢
        obtain ⟨h1, h2⟩ := hs2 he
        exact ⟨by rw [h1]; simp [userStep], .seeded h2⟩

/-- With a non-empty list and an open connection, the events of `Seed` between opening
and closing the connection are a run in the words of the specification, and they
record the answers of the environment. -/
theorem Seed_run (env : Env) (m : GaleraDBHelper) (db : DB)
    (hne : m.config.PreseededDatabases ≠ [])
    (ho : env.OpenDBConnection [Event.info "Preseeding Databases" []] m.config = .inl db) :
    ∃ s res, Seed env m = (res,
        [Event.info "Preseeding Databases" [], Event.openDB m.config (.inl db)] ++ s ++
          [Event.closeDB db]) ∧
      SeedRun db m.config.PreseededDatabases s res ∧
      truthfulFrom env [Event.info "Preseeding Databases" [], Event.openDB m.config (.inl db)]
        s := by
  have hlen : ¬ m.config.PreseededDatabases.length = 0 := by
    simpa [List.length_eq_zero] using hne
  obtain ⟨s, htr, hs1, hs2⟩ := seedLoop_run env db m.config.PreseededDatabases
    ([Event.info "Preseeding Databases" []] ++ [Event.openDB m.config (.inl db)])
  rcases hl : (seedLoop env db m.config.PreseededDatabases
    ([Event.info "Preseeding Databases" []] ++ [Event.openDB m.config (.inl db)])).1 with _ | e
  · obtain ⟨h1, h2⟩ := hs2 hl
    refine ⟨s, _, ?_, h2, by simpa using htr⟩
    unfold Seed
    simp only [hlen, if_false, ho, hl, h1]
    rcases hf : (flushPrivileges env (seedLoop env db m.config.PreseededDatabases
      ([Event.info "Preseeding Databases" []] ++ [Event.openDB m.config (.inl db)])).2).1
      with _ | e <;> simp
  · obtain ⟨h1, h2⟩ := hs1 e hl
    refine ⟨s, _, ?_, h2, by simpa using htr⟩
    unfold Seed
    simp only [hlen, if_false, ho, hl, h1]
    simp

/-- C8: `Seed` returns nil without opening a connection when the list of preseeded
databases is empty.  Otherwise, with the connection open, it processes the databases
in configuration order, each with `CreateDBIfNeeded`, `IsExistingUser`, then
`CreateUser` when the user does not exist and `UpdateUser` when it does, then
`GrantUserPrivileges`.  The first step that returns an error ends the run: that
error is the result, only closing the connection follows, no statement is
executed.  When no step fails every database is processed, `FLUSH PRIVILEGES` is the
one statement executed, after the last seeder step, and its result is the result. -/
theorem Seed_contract (env : Env) (m : GaleraDBHelper) :
    Truthful env (Seed env m).2 ∧
    (m.config.PreseededDatabases = [] →
      (Seed env m).1 = none ∧ ∀ ev ∈ (Seed env m).2, ev.isDatabase = false) ∧
    (∀ err, m.config.PreseededDatabases ≠ [] →
      env.OpenDBConnection [Event.info "Preseeding Databases" []] m.config = .inr err →
      (Seed env m).1 = some err ∧ seededDatabases (Seed env m).2 = [] ∧
      execStatements (Seed env m).2 = []) ∧
    (∀ db, m.config.PreseededDatabases ≠ [] →
      env.OpenDBConnection [Event.info "Preseeding Databases" []] m.config = .inl db →
      (∃ s, (Seed env m).2 =
          [Event.info "Preseeding Databases" [], Event.openDB m.config (.inl db)] ++ s ++
            [Event.closeDB db] ∧
        SeedRun db m.config.PreseededDatabases s (Seed env m).1) ∧
      seededDatabases (Seed env m).2 <+: m.config.PreseededDatabases ∧
      (∀ ev ∈ (Seed env m).2, ∀ e, ev.seederError = some e →
        (Seed env m).1 = some e ∧ (∃ pre, (Seed env m).2 = pre ++ [ev, Event.closeDB db]) ∧
        execStatements (Seed env m).2 = []) ∧
      ((∀ ev ∈ (Seed env m).2, ev.seederError = none) →
        seededDatabases (Seed env m).2 = m.config.PreseededDatabases ∧
        execStatements (Seed env m).2 = ["FLUSH PRIVILEGES"] ∧
        ∃ pre post, (Seed env m).2 =
            pre ++ [Event.exec "FLUSH PRIVILEGES" (Seed env m).1] ++ post ∧
          ∀ ev ∈ post, ev.seederError = none ∧ ev.seededDatabase = none)) := by
  refine ⟨?_, ?_, ?_, ?_⟩
  · by_cases hne : m.config.PreseededDatabases = []
    · unfold Seed
      simp [hne, Truthful, truthfulFrom, Event.answeredBy]
    · rcases ho : env.OpenDBConnection [Event.info "Preseeding Databases" []] m.config
        with db | err
      · obtain ⟨s, res, key, _, htr⟩ := Seed_run env m db hne ho
        rw [key]
        unfold Truthful
        rw [truthfulFrom_append, truthfulFrom_append]
        refine ⟨⟨?_, ?_⟩, ?_⟩
        · simp [truthfulFrom, Event.answeredBy, ho]
        · simpa using htr
        · simp [truthfulFrom, Event.answeredBy]
      · have hlen : ¬ m.config.PreseededDatabases.length = 0 := by
          simpa [List.length_eq_zero] using hne
        unfold Seed
        simp [hlen, ho, Truthful, truthfulFrom, Event.answeredBy]
  · intro h
    unfold Seed
    simp [h, Event.isDatabase]
  · intro err hne ho
    have hlen : ¬ m.config.PreseededDatabases.length = 0 := by
      simpa [List.length_eq_zero] using hne
    unfold Seed
    simp [hlen, ho, seededDatabases, execStatements, Event.seededDatabase, Event.execStatement]
  · intro db hne ho
    obtain ⟨s, res, key, hrun, _⟩ := Seed_run env m db hne ho
    rw [key]
    refine ⟨⟨s, rfl, hrun⟩, ?_, ?_, ?_⟩
    · simpa [seededDatabases, Event.seededDatabase] using hrun.seededDatabases_initial
    · intro ev hm e he
      simp at hm
      rcases hm with rfl | rfl | hm | rfl
      · simp [Event.seederError] at he
      · simp [Event.seederError] at he
      · obtain ⟨hr, ⟨pre, hp⟩, hx⟩ := hrun.failing_step_ends ev hm e he
        refine ⟨hr, ⟨[Event.info "Preseeding Databases" [],
          Event.openDB m.config (.inl db)] ++ pre, by simp [hp]⟩, ?_⟩
        unfold execStatements at hx ⊢
        simpa [Event.execStatement] using hx
      · simp [Event.seederError] at he
    · intro hall
      obtain ⟨h1, h2, pre, post, hp, hpost, _⟩ :=
        hrun.flush_when_no_step_fails (fun ev hm => hall ev (by simp [hm]))
      refine ⟨?_, ?_, [Event.info "Preseeding Databases" [],
          Event.openDB m.config (.inl db)] ++ pre, post ++ [Event.closeDB db],
          by simp [hp], ?_⟩
      · unfold seededDatabases at h1 ⊢
        simpa [Event.seededDatabase] using h1
      · unfold execStatements at h2 ⊢
        simpa [Event.execStatement] using h2
      · intro ev hm
        simp at hm
        rcases hm with hm | rfl
        · exact hpost ev hm
        · simp [Event.seederError, Event.seededDatabase]

/-! ## Test database cleanup: theorems -/

theorem listedNames_append (a b : Trace) : listedNames (a ++ b) = listedNames a ++ listedNames b := by
  induction a with
  | nil => rfl
  | cons ev a ih => simp [listedNames, ih]

theorem sqlStatements_listingEvents (pattern : String) (r : Rows ⊕ GoError) :
    sqlStatements (listingEvents pattern r) = [showDatabasesSQL pattern] := by
  cases r <;> simp [sqlStatements, listingEvents, Event.sqlStatement]

theorem listedNames_listingEvents_ok (pattern : String) (r : Rows ⊕ GoError) (names : List String)
    (h : listingResult r = .inl names) : listedNames (listingEvents pattern r) = names := by
  cases r <;> simp [listedNames, listingEvents, Event.listedNames, h]

theorem listedNames_listingEvents_failed (pattern : String) (r : Rows ⊕ GoError) (err : GoError)
    (h : listingResult r = .inr err) : listedNames (listingEvents pattern r) = [] := by
  cases r <;> simp [listedNames, listingEvents, Event.listedNames, h]

theorem DropRun.drops_initial {ns : List String} {s : Trace} {r : Option GoError}
    (h : DropRun ns s r) : sqlStatements s <+: ns.map dropDatabaseSQL := by
  induction h with
  | done => simp [sqlStatements]
  | dropped _ ih => simpa [sqlStatements, Event.sqlStatement, List.cons_prefix_cons] using ih
  | failed => simp [sqlStatements, Event.sqlStatement, List.cons_prefix_cons]

theorem DropRun.drops_all {ns : List String} {s : Trace} {r : Option GoError}
    (h : DropRun ns s r) : r = none →
      sqlStatements s = ns.map dropDatabaseSQL ∧ ∀ ev ∈ s, ev.sqlError = none := by
  induction h with
  | done => simp [sqlStatements]
  | dropped _ ih =>
    intro hr
    obtain ⟨h1, h2⟩ := ih hr
    unfold sqlStatements at h1 ⊢
    simp [Event.sqlStatement, Event.sqlError, h1]
    exact h2
  | failed => simp

theorem DropRun.listedNames_eq {ns : List String} {s : Trace} {r : Option GoError}
    (h : DropRun ns s r) : listedNames s = [] := by
  induction h with
  | done => rfl
  | dropped _ ih => simpa [listedNames, Event.listedNames] using ih
  | failed => simp [listedNames, Event.listedNames]

theorem DropRun.drop_failure {ns : List String} {s : Trace} {r : Option GoError}
    (h : DropRun ns s r) : ∀ e, r = some e →
      ∃ pre ev, s = pre ++ [ev] ∧ ev.sqlError = some e ∧ ∀ x ∈ pre, x.sqlError = none := by
  induction h with
  | done => simp
  | @dropped n rest s res _ ih =>
    intro e he
    obtain ⟨pre, ev, hp, hev, hpre⟩ := ih e he
    refine ⟨Event.exec (dropDatabaseSQL n) none :: pre, ev, by simp [hp], hev, ?_⟩
    intro x hx
    simp at hx
    rcases hx with rfl | hx
    · rfl
    · exact hpre x hx
  | @failed n rest err =>
    intro e he
    simp at he
    subst he
    exact ⟨[], Event.exec (dropDatabaseSQL n) (some err), by simp, rfl, by simp⟩

/-- The loop of `dropDatabasesNamed` extends the trace by drops in the words of the
specification, each of which records the answer of the environment. -/
theorem dropDatabasesNamed_run (env : Env) : ∀ (ns : List String) (t : Trace),
    ∃ s, (dropDatabasesNamed env ns t).2 = t ++ s ∧
      DropRun ns s (dropDatabasesNamed env ns t).1 ∧ truthfulFrom env t s := by
  intro ns
  induction ns with
  | nil => intro t; exact ⟨[], by simp [dropDatabasesNamed], .done, trivial⟩
  | cons n rest ih =>
    intro t
    rcases he : env.Exec t (dropDatabaseSQL n) with _ | err
    · obtain ⟨s, hs, hrun, htr⟩ := ih (t ++ [Event.exec (dropDatabaseSQL n) none])
      refine ⟨Event.exec (dropDatabaseSQL n) none :: s, ?_, ?_, ?_⟩
      · simp only [dropDatabasesNamed, he, hs]; simp
      · simp only [dropDatabasesNamed, he]; exact .dropped hrun
      · simp only [truthfulFrom, Event.answeredBy]; exact ⟨he, htr⟩
    · refine ⟨[Event.exec (dropDatabaseSQL n) (some err)], ?_, ?_, ?_⟩
      · simp only [dropDatabasesNamed, he]
      · simp only [dropDatabasesNamed, he]; exact .failed
      · simp only [truthfulFrom, Event.answeredBy]; exact ⟨he, trivial⟩

theorem truthfulFrom_listingEvents (env : Env) (pattern : String) (t : Trace) :
    truthfulFrom env t (listingEvents pattern (env.Query t (showDatabasesSQL pattern))) := by
  cases h : env.Query t (showDatabasesSQL pattern) <;>
    simp [listingEvents, truthfulFrom, Event.answeredBy, h]

theorem scanRows_eq (scans : List (String ⊕ GoError)) : ∀ acc : List String,
    scanRows scans acc =
      match firstScanError scans with
      | some err => .inr err
      | none => .inl (acc ++ scannedNames scans) := by
  induction scans with
  | nil => intro acc; simp [scanRows, firstScanError, scannedNames]
  | cons x rest ih =>
    intro acc
    cases x with
    | inl name =>
      simp only [scanRows, firstScanError, scannedNames, ih]
      cases firstScanError rest <;> simp
    | inr err => simp [scanRows, firstScanError]

/-- The loop of `showDatabaseNamesLike` returns what the specification calls the
result of the listing. -/
theorem namesOfRows_eq (rows : Rows) : namesOfRows rows = listingResult (.inl rows) := by
  unfold namesOfRows listingResult
  rw [scanRows_eq]
  cases hs : firstScanError rows.scans <;> cases hi : rows.iterErr <;> simp [hs, hi]

theorem showDatabaseNamesLike_eq (env : Env) (pattern : String) (t : Trace) :
    showDatabaseNamesLike env pattern t =
      (listingResult (env.Query t (showDatabasesSQL pattern)),
        t ++ listingEvents pattern (env.Query t (showDatabasesSQL pattern))) := by
  unfold showDatabaseNamesLike
  cases h : env.Query t (showDatabasesSQL pattern) with
  | inl rows => simp [namesOfRows_eq, listingEvents]
  | inr err => simp [listingResult, listingEvents]

/-- With an open connection, the events of `TestDatabaseCleanup` between opening and
closing the connection are a run in the words of the specification, they record
the answers of the environment, and the function returns. -/
theorem TestDatabaseCleanup_run (env : Env) (m : GaleraDBHelper) (db : DB)
    (ho : env.OpenDBConnection [Event.info "Cleaning up databases" []] m.config = .inl db) :
    ∃ s res, TestDatabaseCleanup env m = (.returned res,
        [Event.info "Cleaning up databases" [], Event.openDB m.config (.inl db)] ++ s ++
          [Event.closeDB db]) ∧
      CleanupRun s res ∧
      truthfulFrom env [Event.info "Cleaning up databases" [], Event.openDB m.config (.inl db)]
        s := by
  rcases hd : env.Exec ([Event.info "Cleaning up databases" []] ++ [Event.openDB m.config (.inl db)]) deletePermissionsSQL with _ | err
  swap
  · refine ⟨_, _, ?_, @CleanupRun.deleteFailed err, ?_⟩
    · unfold TestDatabaseCleanup deletePermissionsToCreateTestDatabases
      simp only [ho, hd]
      simp
    · simp only [truthfulFrom, Event.answeredBy]; exact ⟨hd, trivial, trivial⟩
  have hdel : deletePermissionsToCreateTestDatabases env ([Event.info "Cleaning up databases" []] ++ [Event.openDB m.config (.inl db)]) = (none, (([Event.info "Cleaning up databases" []] ++ [Event.openDB m.config (.inl db)]) ++ [Event.exec deletePermissionsSQL none])) := by
    simp only [deletePermissionsToCreateTestDatabases, hd]
  rcases hf : env.Exec (([Event.info "Cleaning up databases" []] ++ [Event.openDB m.config (.inl db)]) ++ [Event.exec deletePermissionsSQL none]) "FLUSH PRIVILEGES" with _ | err
  swap
  · refine ⟨_, _, ?_, @CleanupRun.flushFailed err, ?_⟩
    · unfold TestDatabaseCleanup
      simp only [ho, hdel, flushPrivileges, hf]
      simp
    · simp only [truthfulFrom, Event.answeredBy]; exact ⟨hd, hf, trivial, trivial⟩
  have hfl : flushPrivileges env (([Event.info "Cleaning up databases" []] ++ [Event.openDB m.config (.inl db)]) ++ [Event.exec deletePermissionsSQL none]) = (none, ((([Event.info "Cleaning up databases" []] ++ [Event.openDB m.config (.inl db)]) ++ [Event.exec deletePermissionsSQL none]) ++ [Event.exec "FLUSH PRIVILEGES" none])) := by
    simp only [flushPrivileges, hf]
  have ht1 := truthfulFrom_listingEvents env "test" ((([Event.info "Cleaning up databases" []] ++ [Event.openDB m.config (.inl db)]) ++ [Event.exec deletePermissionsSQL none]) ++ [Event.exec "FLUSH PRIVILEGES" none])
  have ht2 := fun r1 => truthfulFrom_listingEvents env "test\\_%" (((([Event.info "Cleaning up databases" []] ++ [Event.openDB m.config (.inl db)]) ++ [Event.exec deletePermissionsSQL none]) ++ [Event.exec "FLUSH PRIVILEGES" none]) ++ listingEvents "test" r1)
  have hd2 := hd
  have hf2 := hf
  simp only [List.append_assoc, List.cons_append, List.nil_append] at hd2 hf2
  generalize hr1 : env.Query ((([Event.info "Cleaning up databases" []] ++ [Event.openDB m.config (.inl db)]) ++ [Event.exec deletePermissionsSQL none]) ++ [Event.exec "FLUSH PRIVILEGES" none]) (showDatabasesSQL "test") = r1 at ht1
  rcases hl1 : listingResult r1 with names1 | err
  swap
  · refine ⟨_, _, ?_, .listTestFailed hl1, ?_⟩
    · unfold TestDatabaseCleanup
      simp only [ho, hdel, hfl, testDatabaseNames, showDatabaseNamesLike_eq, hr1, hl1]
      simp
    · simp only [truthfulFrom_append]
      simp [truthfulFrom, Event.answeredBy, hd2, hf2]
      simpa using ht1
  replace ht2 := ht2 r1
  generalize hr2 : env.Query (((([Event.info "Cleaning up databases" []] ++ [Event.openDB m.config (.inl db)]) ++ [Event.exec deletePermissionsSQL none]) ++ [Event.exec "FLUSH PRIVILEGES" none]) ++ listingEvents "test" r1) (showDatabasesSQL "test\\_%") = r2
    at ht2
  rcases hl2 : listingResult r2 with names2 | err
  swap
  · refine ⟨_, _, ?_, .listUnderscoreFailed hl1 hl2, ?_⟩
    · unfold TestDatabaseCleanup
      simp only [ho, hdel, hfl, testDatabaseNames, showDatabaseNamesLike_eq, hr1, hl1, hr2, hl2]
      simp
    · simp only [truthfulFrom_append]
      simp [truthfulFrom, Event.answeredBy, hd2, hf2]
      exact ⟨by simpa using ht1, by simpa using ht2⟩
  obtain ⟨s, hs, hrun, htr⟩ := dropDatabasesNamed_run env (names1 ++ names2)
    (((([Event.info "Cleaning up databases" []] ++ [Event.openDB m.config (.inl db)]) ++ [Event.exec deletePermissionsSQL none]) ++ [Event.exec "FLUSH PRIVILEGES" none]) ++ listingEvents "test" r1 ++ listingEvents "test\\_%" r2)
  refine ⟨_, _, ?_, .drops hl1 hl2 hrun, ?_⟩
  · unfold TestDatabaseCleanup
    simp only [ho, hdel, hfl, testDatabaseNames, showDatabaseNamesLike_eq, hr1, hl1, hr2, hl2,
      List.nil_append, hs]
    simp
  · simp only [truthfulFrom_append]
    simp [truthfulFrom, Event.answeredBy, hd2, hf2]
    exact ⟨⟨by simpa using ht1, by simpa using ht2⟩, by simpa using htr⟩

theorem filterMap_sqlStatement_listingEvents (pattern : String) (r : Rows ⊕ GoError) :
    List.filterMap Event.sqlStatement (listingEvents pattern r) = [showDatabasesSQL pattern] := by
  cases r <;> simp [listingEvents, Event.sqlStatement]

theorem sqlError_listingEvents_ok (pattern : String) (r : Rows ⊕ GoError) (names : List String)
    (h : listingResult r = .inl names) : ∀ ev ∈ listingEvents pattern r, ev.sqlError = none := by
  cases r <;> simp [listingEvents, Event.sqlError, h]

theorem listingEvents_failed (pattern : String) (r : Rows ⊕ GoError) (err : GoError)
    (h : listingResult r = .inr err) :
    ∃ post, listingEvents pattern r = Event.query (showDatabasesSQL pattern) r :: post ∧
      (Event.query (showDatabasesSQL pattern) r).sqlError = some err ∧
      List.filterMap Event.sqlStatement post = [] := by
  cases r with
  | inl rows => exact ⟨[Event.rowsClose], rfl, by simp [Event.sqlError, h], by
      simp [Event.sqlStatement]⟩
  | inr e => exact ⟨[], rfl, by simp [Event.sqlError, h], by simp⟩

theorem CleanupRun.statements_initial {s : Trace} {r : Option GoError} (h : CleanupRun s r) :
    sqlStatements s <+: cleanupPlan (listedNames s) := by
  unfold sqlStatements cleanupPlan
  cases h with
  | deleteFailed => simp [Event.sqlStatement, List.cons_prefix_cons]
  | flushFailed => simp [Event.sqlStatement, List.cons_prefix_cons]
  | listTestFailed h1 =>
    simp [Event.sqlStatement, List.cons_prefix_cons, filterMap_sqlStatement_listingEvents]
  | listUnderscoreFailed h1 h2 =>
    simp [Event.sqlStatement, List.cons_prefix_cons, filterMap_sqlStatement_listingEvents]
  | @drops r1 r2 names1 names2 s2 res h1 h2 hd =>
    have hi := hd.drops_initial
    unfold sqlStatements at hi
    simp [Event.sqlStatement, List.cons_prefix_cons, filterMap_sqlStatement_listingEvents,
      listedNames_append, listedNames, Event.listedNames, listedNames_listingEvents_ok _ _ _ h1,
      listedNames_listingEvents_ok _ _ _ h2, hd.listedNames_eq]
    simpa using hi

theorem CleanupRun.statements_all {s : Trace} {r : Option GoError} (h : CleanupRun s r) :
    r = none → sqlStatements s = cleanupPlan (listedNames s) ∧ ∀ ev ∈ s, ev.sqlError = none := by
  intro hr
  subst hr
  unfold sqlStatements cleanupPlan
  cases h with
  | @drops r1 r2 names1 names2 s2 res h1 h2 hd =>
    obtain ⟨ha, hb⟩ := hd.drops_all rfl
    unfold sqlStatements at ha
    refine ⟨?_, ?_⟩
    · simp [Event.sqlStatement, filterMap_sqlStatement_listingEvents,
        listedNames_append, listedNames, Event.listedNames, listedNames_listingEvents_ok _ _ _ h1,
        listedNames_listingEvents_ok _ _ _ h2, hd.listedNames_eq, ha]
    · intro ev hm
      simp at hm
      rcases hm with rfl | rfl | hm | hm | hm
      · rfl
      · rfl
      · exact sqlError_listingEvents_ok _ _ _ h1 ev hm
      · exact sqlError_listingEvents_ok _ _ _ h2 ev hm
      · exact hb ev hm

theorem CleanupRun.failure {s : Trace} {r : Option GoError} (h : CleanupRun s r) :
    ∀ e, r = some e → ∃ pre ev post, s = pre ++ [ev] ++ post ∧ ev.sqlError = some e ∧
      (∀ x ∈ pre, x.sqlError = none) ∧ sqlStatements post = [] := by
  intro e he
  unfold sqlStatements
  cases h with
  | @deleteFailed err =>
    simp at he
    subst he
    exact ⟨[], Event.exec deletePermissionsSQL (some err),
      [Event.error "error deleting permissions for test databases" err []], by simp, rfl,
      by simp, by simp [Event.sqlStatement]⟩
  | @flushFailed err =>
    simp at he
    subst he
    exact ⟨[Event.exec deletePermissionsSQL none], Event.exec "FLUSH PRIVILEGES" (some err),
      [Event.error "Error flushing privileges" err []], by simp, rfl,
      by simp [Event.sqlError], by simp [Event.sqlStatement]⟩
  | @listTestFailed r1 err h1 =>
    simp at he
    subst he
    obtain ⟨post, hp, hq, hpost⟩ := listingEvents_failed "test" r1 err h1
    refine ⟨[Event.exec deletePermissionsSQL none, Event.exec "FLUSH PRIVILEGES" none],
      Event.query (showDatabasesSQL "test") r1,
      post ++ [Event.error "error searching for 'test' databases" err []], by simp [hp], hq,
      by simp [Event.sqlError], by simp [hpost, Event.sqlStatement]⟩
  | @listUnderscoreFailed r1 r2 names1 err h1 h2 =>
    simp at he
    subst he
    obtain ⟨post, hp, hq, hpost⟩ := listingEvents_failed "test\\_%" r2 err h2
    refine ⟨[Event.exec deletePermissionsSQL none, Event.exec "FLUSH PRIVILEGES" none] ++
      listingEvents "test" r1, Event.query (showDatabasesSQL "test\\_%") r2,
      post ++ [Event.error "error searching for 'test_%' databases" err []], by simp [hp], hq,
      ?_, by simp [hpost, Event.sqlStatement]⟩
    intro x hx
    simp at hx
    rcases hx with rfl | rfl | hx
    · rfl
    · rfl
    · exact sqlError_listingEvents_ok _ _ _ h1 x hx
  | @drops r1 r2 names1 names2 s2 res h1 h2 hd =>
    obtain ⟨pre, ev, hp, hev, hpre⟩ := hd.drop_failure e he
    refine ⟨[Event.exec deletePermissionsSQL none, Event.exec "FLUSH PRIVILEGES" none] ++
      listingEvents "test" r1 ++ listingEvents "test\\_%" r2 ++ pre, ev, [], by simp [hp], hev,
      ?_, by simp⟩
    intro x hx
    simp at hx
    rcases hx with rfl | rfl | hx | hx | hx
    · rfl
    · rfl
    · exact sqlError_listingEvents_ok _ _ _ h1 x hx
    · exact sqlError_listingEvents_ok _ _ _ h2 x hx
    · exact hpre x hx

/-- C10: when the connection cannot be opened `TestDatabaseCleanup` panics and
returns no error.  Otherwise it returns, and its statements are, in this order,
the deletion of the test-database permissions, `FLUSH PRIVILEGES`, the listing of
`test`, the listing of `test\_%`, and one `DROP DATABASE IF EXISTS` per name the
listings returned, the `test` names first.  It stops at the first failure: the
statements sent are an initial part of that plan, the failing statement is the
last one sent, nothing before it failed, and its error is the result.  When the
result is nil the whole plan was sent and nothing failed. -/
theorem TestDatabaseCleanup_contract (env : Env) (m : GaleraDBHelper) :
    Truthful env (TestDatabaseCleanup env m).2 ∧
    (∀ err, env.OpenDBConnection [Event.info "Cleaning up databases" []] m.config = .inr err →
      TestDatabaseCleanup env m = (.panicked "",
        [Event.info "Cleaning up databases" [], Event.openDB m.config (.inr err)])) ∧
    (∀ db, env.OpenDBConnection [Event.info "Cleaning up databases" []] m.config = .inl db →
      ∃ res, (TestDatabaseCleanup env m).1 = .returned res ∧
        (∃ s, (TestDatabaseCleanup env m).2 =
            [Event.info "Cleaning up databases" [], Event.openDB m.config (.inl db)] ++ s ++
              [Event.closeDB db] ∧ CleanupRun s res) ∧
        sqlStatements (TestDatabaseCleanup env m).2 <+:
          cleanupPlan (listedNames (TestDatabaseCleanup env m).2) ∧
        (res = none →
          sqlStatements (TestDatabaseCleanup env m).2 =
            cleanupPlan (listedNames (TestDatabaseCleanup env m).2) ∧
          ∀ ev ∈ (TestDatabaseCleanup env m).2, ev.sqlError = none) ∧
        (∀ e, res = some e → ∃ pre ev post,
          (TestDatabaseCleanup env m).2 = pre ++ [ev] ++ post ∧ ev.sqlError = some e ∧
          (∀ x ∈ pre, x.sqlError = none) ∧ sqlStatements post = [])) := by
  refine ⟨?_, ?_, ?_⟩
  · rcases ho : env.OpenDBConnection [Event.info "Cleaning up databases" []] m.config
      with db | err
    · obtain ⟨s, res, key, _, htr⟩ := TestDatabaseCleanup_run env m db ho
      rw [key]
      unfold Truthful
      rw [truthfulFrom_append, truthfulFrom_append]
      refine ⟨⟨?_, ?_⟩, ?_⟩
      · simp [truthfulFrom, Event.answeredBy, ho]
      · simpa using htr
      · simp [truthfulFrom, Event.answeredBy]
    · unfold TestDatabaseCleanup
      simp [ho, Truthful, truthfulFrom, Event.answeredBy]
  · intro err ho
    unfold TestDatabaseCleanup
    simp [ho]
  · intro db ho
    obtain ⟨s, res, key, hrun, _⟩ := TestDatabaseCleanup_run env m db ho
    rw [key]
    refine ⟨res, rfl, ⟨s, rfl, hrun⟩, ?_, ?_, ?_⟩
    · have h := hrun.statements_initial
      unfold sqlStatements at h ⊢
      simpa [Event.sqlStatement, listedNames_append, listedNames, Event.listedNames] using h
    · intro hr
      obtain ⟨h1, h2⟩ := hrun.statements_all hr
      unfold sqlStatements at h1 ⊢
      refine ⟨?_, ?_⟩
      · simpa [Event.sqlStatement, listedNames_append, listedNames, Event.listedNames] using h1
      · intro ev hm
        simp at hm
        rcases hm with rfl | rfl | hm | rfl
        · rfl
        · rfl
        · exact h2 ev hm
        · rfl
    · intro e he
      obtain ⟨pre, ev, post, hp, hev, hpre, hpost⟩ := hrun.failure e he
      refine ⟨[Event.info "Cleaning up databases" [], Event.openDB m.config (.inl db)] ++ pre,
        ev, post ++ [Event.closeDB db], by simp [hp], hev, ?_, ?_⟩
      · intro x hx
        simp at hx
        rcases hx with rfl | rfl | hx
        · rfl
        · rfl
        · exact hpre x hx
      · unfold sqlStatements at hpost ⊢
        simp [hpost, Event.sqlStatement]

/-! ## The contracts at concrete runs -/

/-- C8 at a concrete run: four databases, the user of `b` exists, the grant on `c`
fails; the run ends with that error, nothing is flushed, `d` is never started. -/
theorem Seed_contract_witness :
    (Seed seedEnv busyHelper).1 = some (.other "grant denied") ∧
    execStatements (Seed seedEnv busyHelper).2 = [] ∧
    seededDatabases (Seed seedEnv busyHelper).2 =
      [⟨"a", "ua", "pa"⟩, ⟨"b", "ub", "pb"⟩, ⟨"c", "uc", "pc"⟩] := by
  have h := (Seed_contract seedEnv busyHelper).2.2.2 ⟨0, "&sql.DB"⟩ (by decide) rfl
  have hf := h.2.2.1 (Event.grantUserPrivileges ⟨"c", "uc", "pc"⟩ (some (.other "grant denied")))
    (by decide) (.other "grant denied") rfl
  exact ⟨hf.1, hf.2.2, by decide⟩

/-- C9 at a concrete run: the first file cannot be read, the second runs, the third
fails in execution, the fourth is never read. -/
theorem RunPostStartSQL_contract_witness :
    (RunPostStartSQL postStartEnv busyHelper).1 = some (.other "syntax error") ∧
    Event.error "error reading PostStartSQL file" (.other "no such file")
      [("filePath", "missing.sql")] ∈ (RunPostStartSQL postStartEnv busyHelper).2 ∧
    readPaths (RunPostStartSQL postStartEnv busyHelper).2 = ["missing.sql", "a.sql", "bad.sql"] := by
  have h := RunPostStartSQL_contract postStartEnv busyHelper
  have hf := h.2.2.2.2.2.2.2.1 "BAD" (.other "syntax error") (by decide)
  have hl := h.2.2.2.1 "missing.sql" (.other "no such file") (by decide)
  exact ⟨hf.1, hl, by decide⟩

/-- C10 at a concrete run: the listings return `test`, `test_a`, `test_b`, and the drop
of `test_a` fails; `test_b` is not dropped and the error is returned. -/
theorem TestDatabaseCleanup_contract_witness :
    (TestDatabaseCleanup cleanupEnv sampleHelper).1 = .returned (some (.other "access denied")) ∧
    sqlStatements (TestDatabaseCleanup cleanupEnv sampleHelper).2 <+:
      cleanupPlan ["test", "test_a", "test_b"] ∧
    sqlStatements (TestDatabaseCleanup cleanupEnv sampleHelper).2 =
      [deletePermissionsSQL, "FLUSH PRIVILEGES", "SHOW DATABASES LIKE 'test'",
        "SHOW DATABASES LIKE 'test\\_%'", "DROP DATABASE IF EXISTS test",
        "DROP DATABASE IF EXISTS test_a"] := by
  obtain ⟨res, hres, _, hinit, _, _⟩ :=
    (TestDatabaseCleanup_contract cleanupEnv sampleHelper).2.2 ⟨0, "&sql.DB"⟩ rfl
  have hn : listedNames (TestDatabaseCleanup cleanupEnv sampleHelper).2 =
      ["test", "test_a", "test_b"] := by decide
  rw [hn] at hinit
  exact ⟨by decide, hinit, by decide⟩

end GaleraInit
